import Mathlib

/-!
BoidSimulationGpu: the double-buffered transform-feedback pipeline.

A shallow embedding of `src/simulation.cpp`, `src/simulation.h` and the frame loop of
`src/main.cpp`.

Conventions of the embedding:

* The `float` values of the compute shader, of the buffers and of the uniforms are binary32
  values (`F32`): a finite value, an infinity or NaN. Every operation is the exact one
  followed by rounding to the nearest binary32 value, ties to even, with overflow to an
  infinity and the IEEE 754 rules for infinities and NaN. The sign of zero is not modelled.
* The render shaders `kVertexShader` and `kFragmentShader` are written over the rationals with
  exact operations; rounding is not modelled for them.
* The vectors `positions_` and `velocities_` hold finite floats, written as rationals, and
  are converted to binary32 when they are uploaded. The C++ `std::sqrt` (taken of a sum of
  squares computed in `double`) is a parameter `sqrt` of the definitions that use it.
* The GLSL built-in `normalize` gives NaN components for the zero vector
  (`v * inversesqrt(dot(v, v))` is `0 * inf`); its value on the other vectors is a parameter
  `unit` of the definitions that use it.
* `unsigned` arithmetic wraps modulo 2^32 where the program computes with it (the index
  `2 * i` of `GenerateParticles`), and the count of `glDrawArrays` is a signed 32-bit
  `GLsizei`. Object names (`GLuint`) and the other counts are naturals.
* The OpenGL server is an explicit state (`GlContext`) on which each GL entry point used by
  the program is a function. Of the framebuffer the state records, in `drawn`, the vertices
  rasterized since the last `glClear`, each as the value fetched for the input `position` of
  the render program.
* The macro `GL_CALL` comes from `gl_util.h`, which is not among the sources; `GL_CALL(x)` is
  taken to run `x`, so every wrapped call is written as the call itself.
-/

namespace BoidSim

/-! ## Binary32 floating point -/

/-- A binary32 value: a finite number, an infinity or NaN. -/
inductive F32 where
  | finite (q : ℚ)
  | posInf
  | negInf
  | nan
deriving DecidableEq

/-- The integer nearest to `x`, the even one of the two when `x` lies halfway. -/
def roundHalfEven (x : ℚ) : ℤ :=
  if x - ⌊x⌋ < 1 / 2 then ⌊x⌋
  else if 1 / 2 < x - ⌊x⌋ then ⌊x⌋ + 1
  else if ⌊x⌋ % 2 = 0 then ⌊x⌋ else ⌊x⌋ + 1

/-- The number of times `n` can be halved before it drops below 2, counted up to `fuel`:
the floor of the binary logarithm of `n` when `0 < n < 2 ^ fuel`. -/
def log2Fuel : Nat → Nat → Nat
  | 0, _ => 0
  | fuel + 1, n => if 2 ≤ n then log2Fuel fuel (n / 2) + 1 else 0

/-- The binary exponent of a positive rational `q`: the `e` with `2 ^ e ≤ q < 2 ^ (e + 1)`,
for `q` between `2 ^ (-256)` and `2 ^ 256`. These bounds lie beyond the binary32 range on
both sides. -/
def exponent (q : ℚ) : ℤ :=
  if 1 ≤ q then (log2Fuel 256 ⌊q⌋₊ : ℤ)
  else if ⌈q⁻¹⌉₊ ≤ 1 then 0 else -((log2Fuel 256 (⌈q⁻¹⌉₊ - 1) : ℤ) + 1)

/-- Rounding of a real result to binary32, to nearest with ties to even. The spacing of the
binary32 values around `q` is `2 ^ (e - 23)` for the binary exponent `e` of `|q|`, and
`2 ^ (-149)` in the subnormal range; a result that rounds to `2 ^ 128` or beyond in magnitude
overflows to an infinity. -/
def F32.round (q : ℚ) : F32 :=
  if q = 0 then .finite 0 else
  let e : ℤ := max (exponent |q|) (-126)
  let ulp : ℚ := 2 ^ (e - 23)
  let r : ℚ := (roundHalfEven (q / ulp) : ℚ) * ulp
  if 2 ^ 128 ≤ |r| then (if 0 < q then .posInf else .negInf) else .finite r

/-- Conversion of an `int` to `float`. -/
def F32.ofInt (n : ℤ) : F32 := F32.round n

/-- Negation. -/
def F32.neg : F32 → F32
  | .finite a => .finite (-a)
  | .posInf => .negInf
  | .negInf => .posInf
  | .nan => .nan

/-- Addition. -/
def F32.add : F32 → F32 → F32
  | .finite a, .finite b => F32.round (a + b)
  | .nan, _ => .nan
  | _, .nan => .nan
  | .posInf, .negInf => .nan
  | .negInf, .posInf => .nan
  | .posInf, _ => .posInf
  | _, .posInf => .posInf
  | .negInf, _ => .negInf
  | _, .negInf => .negInf

/-- Subtraction. -/
def F32.sub (a b : F32) : F32 := F32.add a (F32.neg b)

/-- Multiplication; an infinity times zero is NaN. -/
def F32.mul : F32 → F32 → F32
  | .finite a, .finite b => F32.round (a * b)
  | .nan, _ => .nan
  | _, .nan => .nan
  | .finite a, .posInf => if a = 0 then .nan else if 0 < a then .posInf else .negInf
  | .finite a, .negInf => if a = 0 then .nan else if 0 < a then .negInf else .posInf
  | .posInf, .finite b => if b = 0 then .nan else if 0 < b then .posInf else .negInf
  | .negInf, .finite b => if b = 0 then .nan else if 0 < b then .negInf else .posInf
  | .posInf, .posInf => .posInf
  | .negInf, .negInf => .posInf
  | .posInf, .negInf => .negInf
  | .negInf, .posInf => .negInf

/-- Division; zero by zero and an infinity by an infinity are NaN, and a non-zero finite
value divided by zero is an infinity. -/
def F32.div : F32 → F32 → F32
  | .finite a, .finite b =>
    if b = 0 then (if a = 0 then .nan else if 0 < a then .posInf else .negInf)
    else F32.round (a / b)
  | .nan, _ => .nan
  | _, .nan => .nan
  | .finite _, .posInf => .finite 0
  | .finite _, .negInf => .finite 0
  | .posInf, .finite b => if 0 ≤ b then .posInf else .negInf
  | .negInf, .finite b => if 0 ≤ b then .negInf else .posInf
  | .posInf, .posInf => .nan
  | .negInf, .negInf => .nan
  | .posInf, .negInf => .nan
  | .negInf, .posInf => .nan

/-- GLSL `floor`. -/
def F32.floor : F32 → F32
  | .finite a => .finite (⌊a⌋ : ℤ)
  | x => x

/-- The comparison `a < b`, false when an operand is NaN. -/
def F32.lt : F32 → F32 → Bool
  | .finite a, .finite b => decide (a < b)
  | .finite _, .posInf => true
  | .negInf, .finite _ => true
  | .negInf, .posInf => true
  | _, _ => false

/-- The comparison `a <= b`, false when an operand is NaN. -/
def F32.le : F32 → F32 → Bool
  | .finite a, .finite b => decide (a ≤ b)
  | .finite _, .posInf => true
  | .negInf, .finite _ => true
  | .negInf, .posInf => true
  | .posInf, .posInf => true
  | .negInf, .negInf => true
  | _, _ => false

instance : Add F32 := ⟨F32.add⟩

instance : Sub F32 := ⟨F32.sub⟩

instance : Mul F32 := ⟨F32.mul⟩

instance : Div F32 := ⟨F32.div⟩

/-! ## GLSL vectors and built-ins -/

/-- GLSL `vec2` of the compute shader. -/
structure FVec2 where
  x : F32
  y : F32
deriving DecidableEq

/-- GLSL `vec3` of the compute shader. -/
structure FVec3 where
  x : F32
  y : F32
  z : F32
deriving DecidableEq

/-- GLSL `vec4` of the compute shader and of the buffers. -/
structure FVec4 where
  x : F32
  y : F32
  z : F32
  w : F32
deriving DecidableEq

/-- GLSL `vec4` of the render shaders. -/
structure Vec4 where
  x : ℚ
  y : ℚ
  z : ℚ
  w : ℚ
deriving DecidableEq

/-- Swizzle `.xy` of a `vec3`. -/
def FVec3.xy (v : FVec3) : FVec2 := ⟨v.x, v.y⟩

/-- Swizzle `.xy` of a `vec4`. -/
def FVec4.xy (v : FVec4) : FVec2 := ⟨v.x, v.y⟩

/-- Componentwise `vec2 + vec2`. -/
def FVec2.add (a b : FVec2) : FVec2 := ⟨a.x + b.x, a.y + b.y⟩

/-- Componentwise `vec2 - vec2`. -/
def FVec2.sub (a b : FVec2) : FVec2 := ⟨a.x - b.x, a.y - b.y⟩

/-- The product `vec2 * float`. -/
def FVec2.scale (a : FVec2) (k : F32) : FVec2 := ⟨a.x * k, a.y * k⟩

/-- The four components of a `vec4` in memory order. -/
def FVec4.toList (v : FVec4) : List F32 := [v.x, v.y, v.z, v.w]

/-- GLSL `mod(x, y)` on floats, defined by the language as `x - y * floor(x / y)`, each
operation rounded. -/
def mod (x y : F32) : F32 := x - y * F32.floor (x / y)

/-- GLSL `mod(vec2, vec2)`, componentwise. -/
def mod2 (p s : FVec2) : FVec2 := ⟨mod p.x s.x, mod p.y s.y⟩

/-- GLSL `normalize(vec2)`: NaN in both components for the zero vector, `unit v` for every
other vector. -/
def normalize (unit : FVec2 → FVec2) (v : FVec2) : FVec2 :=
  if v = ⟨.finite 0, .finite 0⟩ then ⟨.nan, .nan⟩ else unit v

/-- GLSL `mix(x, y, a)` on floats: `x * (1 - a) + y * a`. -/
def mix (x y a : ℚ) : ℚ := x * (1 - a) + y * a

/-- GLSL `mix(vec4, vec4, float)`, componentwise. -/
def mix4 (p q : Vec4) (a : ℚ) : Vec4 :=
  ⟨mix p.x q.x a, mix p.y q.y a, mix p.z q.z a, mix p.w q.w a⟩

/-- GLSL constructor `int(float)`: the fractional part is dropped (rounding toward zero). -/
def toInt (f : ℚ) : ℤ := if 0 ≤ f then ⌊f⌋ else ⌈f⌉

/-! ## The shaders of `simulation.cpp` -/

/-- The function `wrap` of `kComputeVertexShader`:
`mod(mod(pos, screen) + screen, screen)`. The shader defines it and never calls it. -/
def wrap (pos screen : FVec2) : FVec2 := mod2 ((mod2 pos screen).add screen) screen

/-- The `main` of `kComputeVertexShader`: the new position of one particle. The inputs are
the uniforms `deltaTime`, `canvasDimensions`, `mousePos` and the attributes `oldPosition`,
`oldVelocity`; the result is the captured varying `newPosition`. The position is wrapped
with one call of `mod`. -/
def kComputeVertexShader (unit : FVec2 → FVec2) (deltaTime : F32) (canvasDimensions : FVec2)
    (mousePos : FVec3) (oldPosition : FVec4) (oldVelocity : FVec2) : FVec4 :=
  let mouseFactor : F32 := .finite 300
  let target := mousePos.xy.sub oldPosition.xy
  let direction := normalize unit target
  let newVelocity := oldVelocity.add ((direction.scale mouseFactor).scale mousePos.z)
  let pos := oldPosition.xy.add (newVelocity.scale deltaTime)
  let wrapped := mod2 pos canvasDimensions
  ⟨wrapped.x, wrapped.y, oldPosition.z, oldPosition.w⟩

/-- Outputs of `kVertexShader`. -/
structure VertexOut where
  gl_Position : Vec4
  gl_PointSize : ℚ
  speedMagnitude : ℚ
deriving DecidableEq

/-- GLSL `mat4 * vec4`; `m c` is column `c` of the matrix. -/
def mulMat4 (m : Fin 4 → Vec4) (v : Vec4) : Vec4 :=
  ⟨(m 0).x * v.x + (m 1).x * v.y + (m 2).x * v.z + (m 3).x * v.w,
   (m 0).y * v.x + (m 1).y * v.y + (m 2).y * v.z + (m 3).y * v.w,
   (m 0).z * v.x + (m 1).z * v.y + (m 2).z * v.z + (m 3).z * v.w,
   (m 0).w * v.x + (m 1).w * v.y + (m 2).w * v.z + (m 3).w * v.w⟩

/-- The `main` of `kVertexShader`. The varying `speedMagnitude` is assigned
`int(position.w)`, converted back to `float`. -/
def kVertexShader (transform : Fin 4 → Vec4) (position : Vec4) : VertexOut :=
  { gl_Position := mulMat4 transform ⟨position.x, position.y, 0, 1⟩
    gl_PointSize := position.z
    speedMagnitude := (toInt position.w : ℤ) }

/-- The color `green` of `kFragmentShader`. -/
def green : Vec4 := ⟨0, 1, 0, 1⟩

/-- The color `yellow` of `kFragmentShader`. -/
def yellow : Vec4 := ⟨1, 1, 0, 1⟩

/-- The color `red` of `kFragmentShader`. -/
def red : Vec4 := ⟨1, 0, 0, 1⟩

/-- The `main` of `kFragmentShader`: the output `color` for the input `speedMagnitude`. -/
def kFragmentShader (speedMagnitude : ℚ) : Vec4 :=
  let normalizedSpeed := |speedMagnitude| / 300
  if normalizedSpeed < 1 / 2 then
    mix4 green yellow (normalizedSpeed * 2)
  else
    mix4 yellow red ((normalizedSpeed - 1 / 2) * 2)

/-- The color of a particle in the render pass: a point primitive has one vertex, so the
fragment input `speedMagnitude` is the value `kVertexShader` wrote for that particle. -/
def renderColor (transform : Fin 4 → Vec4) (position : Vec4) : Vec4 :=
  kFragmentShader (kVertexShader transform position).speedMagnitude

/-- The three-stop ramp of the specification at normalized speed `s`:
`lerp(green, yellow, 2s)` below one half and `lerp(yellow, red, 2s - 1)` from one half on. -/
def specRamp (s : ℚ) : Vec4 :=
  if s < 1 / 2 then mix4 green yellow (2 * s) else mix4 yellow red (2 * s - 1)

/-! ## The OpenGL server state -/

/-- The four shader sources of `simulation.cpp`. -/
inductive ShaderSource where
  | kComputeVertexShader
  | kComputeFragmentShader
  | kVertexShader
  | kFragmentShader
deriving DecidableEq

/-- Buffer binding targets used by the program. -/
inductive BufferTarget where
  | GL_ARRAY_BUFFER
  | GL_TRANSFORM_FEEDBACK_BUFFER
deriving DecidableEq

/-- Capabilities switched by `glEnable` and `glDisable` in the program. -/
inductive Capability where
  | GL_PROGRAM_POINT_SIZE
  | GL_RASTERIZER_DISCARD
deriving DecidableEq

/-- State of one generic vertex attribute of a vertex array object: whether the array is
enabled, and the buffer and component count recorded by `glVertexAttribPointer`. -/
structure VertexAttrib where
  enabled : Bool
  buffer : Nat
  size : Nat
deriving DecidableEq

/-- Answers of the GL implementation that the program cannot compute itself: whether a shader
source compiles, whether a set of attached shaders links, and the locations the linker gives
to the attributes and uniforms of a linked program. -/
structure Driver where
  compiles : ShaderSource → Bool
  links : List ShaderSource → Bool
  attribLocation : List ShaderSource → String → Nat
  uniformLocation : List ShaderSource → String → Nat

/-- The part of the OpenGL context that `simulation.cpp` reads or writes. Object names are
naturals; each kind of object has its own name space. -/
structure GlContext where
  /-- Number of shader and program names handed out so far. -/
  programNames : Nat
  /-- Number of buffer names handed out so far. -/
  bufferNames : Nat
  /-- Number of vertex array names handed out so far. -/
  vertexArrayNames : Nat
  /-- Number of transform feedback names handed out so far. -/
  feedbackNames : Nat
  /-- Source given to each shader object by `glShaderSource`. -/
  shaderSource : Nat → Option ShaderSource
  /-- The value `GL_COMPILE_STATUS` of each shader object. -/
  compileStatus : Nat → Bool
  /-- Sources of the shaders attached to each program object, in attachment order. -/
  attached : Nat → List ShaderSource
  /-- Varyings each program records in transform feedback mode. -/
  feedbackVaryings : Nat → List String
  /-- The value `GL_LINK_STATUS` of each program object. -/
  linkStatus : Nat → Bool
  /-- Sources each program object was last linked from. -/
  linkedFrom : Nat → List ShaderSource
  /-- Attribute locations of each linked program. -/
  attribLocation : Nat → String → Nat
  /-- Uniform locations of each linked program. -/
  uniformLocation : Nat → String → Nat
  /-- Uniform values of each program, by location. -/
  uniforms : Nat → Nat → List F32
  /-- The program installed by `glUseProgram`. -/
  program : Nat
  /-- The binding `GL_ARRAY_BUFFER`. -/
  arrayBuffer : Nat
  /-- The generic binding `GL_TRANSFORM_FEEDBACK_BUFFER`. -/
  feedbackBuffer : Nat
  /-- The bound vertex array object. -/
  vertexArray : Nat
  /-- The bound transform feedback object. -/
  transformFeedback : Nat
  /-- Whether transform feedback is active (between Begin and End). -/
  feedbackActive : Bool
  /-- Enabled capabilities. -/
  enabled : Capability → Bool
  /-- The viewport rectangle. -/
  viewport : ℤ × ℤ × ℤ × ℤ
  /-- Data store of each buffer object, as a sequence of floats. -/
  bufferData : Nat → List F32
  /-- Attribute state of each vertex array object, by attribute location. -/
  attribs : Nat → Nat → VertexAttrib
  /-- Buffer bound to indexed binding point 0 of each transform feedback object. -/
  feedbackBase : Nat → Nat
  /-- The vertices rasterized since the last `glClear`, in drawing order, each as the value
  fetched for the input `position` of the render program. -/
  drawn : List FVec4

/-- The call `glCreateProgram`: a new, empty program object. -/
def glCreateProgram (c : GlContext) : Nat × GlContext :=
  let n := c.programNames + 1
  (n, { c with programNames := n
               attached := Function.update c.attached n []
               linkStatus := Function.update c.linkStatus n false })

/-- The call `glCreateShader`: a new shader object without source. -/
def glCreateShader (c : GlContext) : Nat × GlContext :=
  let n := c.programNames + 1
  (n, { c with programNames := n
               shaderSource := Function.update c.shaderSource n none
               compileStatus := Function.update c.compileStatus n false })

/-- The call `glShaderSource`. -/
def glShaderSource (shader : Nat) (src : ShaderSource) (c : GlContext) : GlContext :=
  { c with shaderSource := Function.update c.shaderSource shader (some src) }

/-- The call `glCompileShader`: the compile status becomes what the driver answers for the
source of the shader. -/
def glCompileShader (d : Driver) (shader : Nat) (c : GlContext) : GlContext :=
  let status := match c.shaderSource shader with
    | some src => d.compiles src
    | none => false
  { c with compileStatus := Function.update c.compileStatus shader status }

/-- The call `glAttachShader`. -/
def glAttachShader (prog shader : Nat) (c : GlContext) : GlContext :=
  let srcs : List ShaderSource := match c.shaderSource shader with
    | some src => c.attached prog ++ [src]
    | none => c.attached prog
  { c with attached := Function.update c.attached prog srcs }

/-- The call `glLinkProgram`: the link status becomes what the driver answers for the attached
shaders; a successful link fixes the locations of the attributes and uniforms. -/
def glLinkProgram (d : Driver) (prog : Nat) (c : GlContext) : GlContext :=
  let srcs := c.attached prog
  let ok := d.links srcs
  { c with
    linkStatus := Function.update c.linkStatus prog ok
    linkedFrom := if ok then Function.update c.linkedFrom prog srcs else c.linkedFrom
    attribLocation :=
      if ok then Function.update c.attribLocation prog (d.attribLocation srcs)
      else c.attribLocation
    uniformLocation :=
      if ok then Function.update c.uniformLocation prog (d.uniformLocation srcs)
      else c.uniformLocation }

/-- The call `glTransformFeedbackVaryings(prog, 1, varyings, GL_SEPARATE_ATTRIBS)`. -/
def glTransformFeedbackVaryings (prog : Nat) (varyings : List String) (c : GlContext) :
    GlContext :=
  { c with feedbackVaryings := Function.update c.feedbackVaryings prog varyings }

/-- The call `glDeleteProgram`. -/
def glDeleteProgram (prog : Nat) (c : GlContext) : GlContext :=
  { c with attached := Function.update c.attached prog []
           linkStatus := Function.update c.linkStatus prog false }

/-- The call `glGetAttribLocation`. -/
def glGetAttribLocation (c : GlContext) (prog : Nat) (name : String) : Nat :=
  c.attribLocation prog name

/-- The call `glGetUniformLocation`. -/
def glGetUniformLocation (c : GlContext) (prog : Nat) (name : String) : Nat :=
  c.uniformLocation prog name

/-- The call `glUseProgram`. -/
def glUseProgram (prog : Nat) (c : GlContext) : GlContext := { c with program := prog }

/-- The call `glEnable`. -/
def glEnable (cap : Capability) (c : GlContext) : GlContext :=
  { c with enabled := Function.update c.enabled cap true }

/-- The call `glDisable`. -/
def glDisable (cap : Capability) (c : GlContext) : GlContext :=
  { c with enabled := Function.update c.enabled cap false }

/-- The call `glGenBuffers(1, &name)`: a fresh buffer name without data store. -/
def glGenBuffers (c : GlContext) : Nat × GlContext :=
  let n := c.bufferNames + 1
  (n, { c with bufferNames := n, bufferData := Function.update c.bufferData n [] })

/-- The call `glBindBuffer`. On the transform feedback target it changes the generic binding
only, never an indexed binding point of a transform feedback object. -/
def glBindBuffer (target : BufferTarget) (buffer : Nat) (c : GlContext) : GlContext :=
  match target with
  | .GL_ARRAY_BUFFER => { c with arrayBuffer := buffer }
  | .GL_TRANSFORM_FEEDBACK_BUFFER => { c with feedbackBuffer := buffer }

/-- The call `glBufferData(GL_ARRAY_BUFFER, ...)`: a new data store for the bound buffer. -/
def glBufferData (values : List F32) (c : GlContext) : GlContext :=
  { c with bufferData := Function.update c.bufferData c.arrayBuffer values }

/-- The call `glGenVertexArrays(1, &name)`: a fresh vertex array in its default state. -/
def glGenVertexArrays (c : GlContext) : Nat × GlContext :=
  let n := c.vertexArrayNames + 1
  (n, { c with vertexArrayNames := n
               attribs := Function.update c.attribs n (fun _ => ⟨false, 0, 4⟩) })

/-- The call `glBindVertexArray`. -/
def glBindVertexArray (vao : Nat) (c : GlContext) : GlContext := { c with vertexArray := vao }

/-- The call `glEnableVertexAttribArray` on the bound vertex array. -/
def glEnableVertexAttribArray (location : Nat) (c : GlContext) : GlContext :=
  let a := c.attribs c.vertexArray location
  let vao := Function.update (c.attribs c.vertexArray) location { a with enabled := true }
  { c with attribs := Function.update c.attribs c.vertexArray vao }

/-- The call `glVertexAttribPointer(location, size, GL_FLOAT, false, 0, 0)`: the attribute of
the bound vertex array takes `size` tightly packed floats per vertex from the buffer bound
to `GL_ARRAY_BUFFER`. -/
def glVertexAttribPointer (location size : Nat) (c : GlContext) : GlContext :=
  let a := c.attribs c.vertexArray location
  let vao := Function.update (c.attribs c.vertexArray) location
    { a with buffer := c.arrayBuffer, size := size }
  { c with attribs := Function.update c.attribs c.vertexArray vao }

/-- The call `glGenTransformFeedbacks(1, &name)`: a fresh object with nothing bound. -/
def glGenTransformFeedbacks (c : GlContext) : Nat × GlContext :=
  let n := c.feedbackNames + 1
  (n, { c with feedbackNames := n, feedbackBase := Function.update c.feedbackBase n 0 })

/-- The call `glBindTransformFeedback(GL_TRANSFORM_FEEDBACK, name)`. -/
def glBindTransformFeedback (tf : Nat) (c : GlContext) : GlContext :=
  { c with transformFeedback := tf }

/-- The call `glBindBufferBase(GL_TRANSFORM_FEEDBACK_BUFFER, 0, buffer)`: binding point 0 of
the bound transform feedback object, and the generic binding. -/
def glBindBufferBase (buffer : Nat) (c : GlContext) : GlContext :=
  { c with feedbackBase := Function.update c.feedbackBase c.transformFeedback buffer
           feedbackBuffer := buffer }

/-- The call `glBeginTransformFeedback(GL_POINTS)`. -/
def glBeginTransformFeedback (c : GlContext) : GlContext := { c with feedbackActive := true }

/-- The call `glEndTransformFeedback`. -/
def glEndTransformFeedback (c : GlContext) : GlContext := { c with feedbackActive := false }

/-- The calls `glUniform1f`, `glUniform2f`, `glUniform3f` and `glUniformMatrix4fv`: the values
of the uniform at `location` of the program in use. -/
def glUniform (location : Nat) (values : List F32) (c : GlContext) : GlContext :=
  let prog := Function.update (c.uniforms c.program) location values
  { c with uniforms := Function.update c.uniforms c.program prog }

/-- The call `glViewport`. -/
def glViewport (x y width height : ℤ) (c : GlContext) : GlContext :=
  { c with viewport := (x, y, width, height) }

/-- The call `glClear(GL_COLOR_BUFFER_BIT | GL_DEPTH_BUFFER_BIT)`: nothing drawn before it
remains in the framebuffer. -/
def glClear (c : GlContext) : GlContext := { c with drawn := [] }

/-- Vertex fetch: component `component` of the attribute at `location` for vertex `vertex`,
through the bound vertex array. A component the array does not supply, and every component
of an attribute whose array is not enabled, takes the default `(0, 0, 0, 1)`. -/
def fetch (c : GlContext) (location vertex component : Nat) : F32 :=
  let a := c.attribs c.vertexArray location
  if a.enabled ∧ component < a.size then
    (c.bufferData a.buffer).getD (a.size * vertex + component) (.finite 0)
  else if component = 3 then .finite 1 else .finite 0

/-- Component `i` of the uniform at `location` of the program in use. -/
def uniform (c : GlContext) (location i : Nat) : F32 :=
  (c.uniforms c.program location).getD i (.finite 0)

/-- The sources of the compute program. -/
def computeSources : List ShaderSource := [.kComputeVertexShader, .kComputeFragmentShader]

/-- The sources of the render program. -/
def renderSources : List ShaderSource := [.kVertexShader, .kFragmentShader]

/-- The varying `newPosition` that the compute program produces for vertex `v` of a draw:
`kComputeVertexShader` on the attributes fetched through the bound vertex array and the
uniforms of the program in use. -/
def newPosition (unit : FVec2 → FVec2) (c : GlContext) (v : Nat) : FVec4 :=
  let aPos := c.attribLocation c.program "oldPosition"
  let aVel := c.attribLocation c.program "oldVelocity"
  let uDelta := c.uniformLocation c.program "deltaTime"
  let uCanvas := c.uniformLocation c.program "canvasDimensions"
  let uMouse := c.uniformLocation c.program "mousePos"
  kComputeVertexShader unit (uniform c uDelta 0)
    ⟨uniform c uCanvas 0, uniform c uCanvas 1⟩
    ⟨uniform c uMouse 0, uniform c uMouse 1, uniform c uMouse 2⟩
    ⟨fetch c aPos v 0, fetch c aPos v 1, fetch c aPos v 2, fetch c aPos v 3⟩
    ⟨fetch c aVel v 0, fetch c aVel v 1⟩

/-- The input `position` that the render program receives for vertex `v` of a draw: the
attribute at the location the linker gave to `position`, fetched through the bound vertex
array. -/
def position (c : GlContext) (v : Nat) : FVec4 :=
  let aPosition := c.attribLocation c.program "position"
  ⟨fetch c aPosition v 0, fetch c aPosition v 1, fetch c aPosition v 2,
   fetch c aPosition v 3⟩

/-- The call `glDrawArrays(GL_POINTS, 0, count)`; a negative count is an error and draws no
vertex. With the linked compute program in use and transform feedback active, the varying
`newPosition` of every vertex is written, four floats per vertex and in vertex order, from
the start of the buffer at binding point 0 of the bound transform feedback object; vertices
that no longer fit into the buffer are not recorded. With the linked render program in use
and `GL_RASTERIZER_DISCARD` disabled, every vertex is rasterized. -/
def glDrawArrays (unit : FVec2 → FVec2) (count : ℤ) (c : GlContext) : GlContext :=
  let target := c.feedbackBase c.transformFeedback
  let old := c.bufferData target
  let n := min count.toNat (old.length / 4)
  let captured := (List.range n).flatMap (fun v => (newPosition unit c v).toList)
  { c with
    bufferData :=
      if c.feedbackActive ∧ c.linkStatus c.program = true
          ∧ c.linkedFrom c.program = computeSources
          ∧ c.feedbackVaryings c.program = ["newPosition"] then
        Function.update c.bufferData target (captured ++ old.drop (4 * n))
      else c.bufferData
    drawn :=
      if c.enabled .GL_RASTERIZER_DISCARD = false ∧ c.linkStatus c.program = true
          ∧ c.linkedFrom c.program = renderSources then
        c.drawn ++ (List.range count.toNat).map (position c)
      else c.drawn }

/-! ## The class `Simulation` -/

/-- The struct `Simulation::Gl`. -/
structure Gl where
  compute_program : Nat
  render_program : Nat
  old_position_location : Nat
  velocity_location : Nat
  new_position_location : Nat
  position_location : Nat
  matrix_location : Nat
  delta_location : Nat
  canvas_dimensions_location : Nat
  mouse_pos_location : Nat
  position1_compute_vao : Nat
  position2_compute_vao : Nat
  position1_draw_vao : Nat
  position2_draw_vao : Nat
  transform_feedback1 : Nat
  transform_feedback2 : Nat
  new_position_buffer : Nat
  old_position_buffer : Nat
  velocity_buffer : Nat
deriving DecidableEq

/-- The struct `Simulation::State`. -/
structure State where
  compute : Nat
  tf : Nat
  draw : Nat
deriving DecidableEq

/-- The data members of `Simulation`. -/
structure Simulation where
  width_ : ℤ
  height_ : ℤ
  mouse_x_ : F32
  mouse_y_ : F32
  mouse_clicked_ : Bool
  gl_ : Gl
  current_ : State
  next_ : State
  positions_ : List ℚ
  velocities_ : List ℚ
  particles_count_ : Nat

/-- A `Simulation` object together with the OpenGL context its member functions act on. -/
structure World where
  sim : Simulation
  gl : GlContext

/-- The member function `SetCanvasDimensions`. -/
def SetCanvasDimensions (canvas_width canvas_height : ℤ) (s : Simulation) : Simulation :=
  { s with width_ := canvas_width, height_ := canvas_height }

/-- The member function `SetMousePos`. -/
def SetMousePos (x y : F32) (s : Simulation) : Simulation :=
  { s with mouse_x_ := x, mouse_y_ := y }

/-- The member function `SetMouseClicked`. -/
def SetMouseClicked (m : Bool) (s : Simulation) : Simulation :=
  { s with mouse_clicked_ := m }

/-- The function `CheckShaderError`: true when the shader compiled. The failure branch only
prints the info log. -/
def CheckShaderError (id : Nat) (c : GlContext) : Bool := c.compileStatus id

/-- The function `CheckLinkError`: true when the program linked; otherwise the log is
printed and the program deleted. -/
def CheckLinkError (id : Nat) (c : GlContext) : Bool × GlContext :=
  if c.linkStatus id = false then (false, glDeleteProgram id c) else (true, c)

/-- The member function `Simulation::SetupGl`. The calls `glValidateProgram` and
`glDeleteShader` change nothing this state records and are left out. -/
def SetupGl (d : Driver) (w : World) : Bool × World :=
  let r : Nat × GlContext := glCreateProgram w.gl
  let compute_program : Nat := r.1
  let g : Gl := { w.sim.gl_ with compute_program := compute_program }
  let r : Nat × GlContext := glCreateShader r.2
  let compute_shader : Nat := r.1
  let c : GlContext := glShaderSource compute_shader .kComputeVertexShader r.2
  let c : GlContext := glCompileShader d compute_shader c
  if !CheckShaderError compute_shader c then (false, ⟨{ w.sim with gl_ := g }, c⟩) else
  let r : Nat × GlContext := glCreateShader c
  let compute_frag_shader : Nat := r.1
  let c : GlContext := glShaderSource compute_frag_shader .kComputeFragmentShader r.2
  let c : GlContext := glCompileShader d compute_frag_shader c
  if !CheckShaderError compute_frag_shader c then (false, ⟨{ w.sim with gl_ := g }, c⟩) else
  let c : GlContext := glAttachShader compute_program compute_shader c
  let c : GlContext := glAttachShader compute_program compute_frag_shader c
  let c : GlContext := glTransformFeedbackVaryings compute_program ["newPosition"] c
  let c : GlContext := glLinkProgram d compute_program c
  let r : Bool × GlContext := CheckLinkError compute_program c
  if !r.1 then (false, ⟨{ w.sim with gl_ := g }, r.2⟩) else
  let r : Nat × GlContext := glCreateProgram r.2
  let render_program : Nat := r.1
  let g : Gl := { g with render_program := render_program }
  let r : Nat × GlContext := glCreateShader r.2
  let vertex_shader : Nat := r.1
  let c : GlContext := glShaderSource vertex_shader .kVertexShader r.2
  let c : GlContext := glCompileShader d vertex_shader c
  if !CheckShaderError vertex_shader c then (false, ⟨{ w.sim with gl_ := g }, c⟩) else
  let r : Nat × GlContext := glCreateShader c
  let fragment_shader : Nat := r.1
  let c : GlContext := glShaderSource fragment_shader .kFragmentShader r.2
  let c : GlContext := glCompileShader d fragment_shader c
  if !CheckShaderError fragment_shader c then (false, ⟨{ w.sim with gl_ := g }, c⟩) else
  let c : GlContext := glAttachShader render_program vertex_shader c
  let c : GlContext := glAttachShader render_program fragment_shader c
  let c : GlContext := glLinkProgram d render_program c
  let c : GlContext := glUseProgram compute_program c
  let old_position_location : Nat := glGetAttribLocation c compute_program "oldPosition"
  let velocity_location : Nat := glGetAttribLocation c compute_program "oldVelocity"
  let delta_location : Nat := glGetUniformLocation c compute_program "deltaTime"
  let canvas_dimensions_location : Nat :=
    glGetUniformLocation c compute_program "canvasDimensions"
  let c : GlContext := glUseProgram render_program c
  let matrix_location : Nat := glGetUniformLocation c render_program "transform"
  let position_location : Nat := glGetAttribLocation c render_program "position"
  let mouse_pos_location : Nat := glGetUniformLocation c compute_program "mousePos"
  let c : GlContext := glEnable .GL_PROGRAM_POINT_SIZE c
  (true, ⟨{ w.sim with gl_ := { g with
      old_position_location := old_position_location
      velocity_location := velocity_location
      delta_location := delta_location
      canvas_dimensions_location := canvas_dimensions_location
      matrix_location := matrix_location
      position_location := position_location
      mouse_pos_location := mouse_pos_location } }, c⟩)

/-- The two random lambdas of `GenerateParticles`, each with its own engine: a call takes the
engine state and the bounds, and gives the drawn value and the next engine state. -/
structure RandomSource (E I : Type) where
  randomPosFloat : E → ℚ → ℚ → ℚ × E
  randomInt : I → ℤ → ℤ → ℤ × I

/-- What the generation loop of `GenerateParticles` changes: the two vectors and the two
engines. -/
structure GenState (E I : Type) where
  positions_ : List ℚ
  velocities_ : List ℚ
  floatEngine : E
  intEngine : I

/-- One iteration, with index `i`, of the `for` loop of `GenerateParticles`. The indices
`2 * i` and `2 * i + 1` are computed in `unsigned` arithmetic, modulo 2^32. Reading a vector
past its end is undefined in C++; here it reads 0. -/
def generateStep {E I : Type} (rs : RandomSource E I) (sqrt : ℚ → ℚ) (width_ height_ : ℤ)
    (st : GenState E I) (i : Nat) : GenState E I :=
  let r := rs.randomPosFloat st.floatEngine ((width_ : ℚ) / 2 - 100) ((width_ : ℚ) / 2 + 100)
  let positions_ := st.positions_ ++ [r.1]
  let r := rs.randomPosFloat r.2 ((height_ : ℚ) / 2 - 100) ((height_ : ℚ) / 2 + 100)
  let positions_ := positions_ ++ [r.1]
  let k := rs.randomInt st.intEngine 1 8
  let positions_ := positions_ ++ [(k.1 : ℚ)]
  let r := rs.randomPosFloat r.2 (-300) 300
  let velocities_ := st.velocities_ ++ [r.1]
  let r := rs.randomPosFloat r.2 (-300) 300
  let velocities_ := velocities_ ++ [r.1]
  let a := velocities_.getD ((2 * i) % 2 ^ 32) 0
  let b := velocities_.getD ((2 * i + 1) % 2 ^ 32) 0
  let positions_ := positions_ ++ [sqrt (a ^ 2 + b ^ 2)]
  ⟨positions_, velocities_, r.2, k.2⟩

/-- The loop `for (unsigned i = 0; i < count; i++)` of `GenerateParticles`. -/
def generateLoop {E I : Type} (rs : RandomSource E I) (sqrt : ℚ → ℚ) (width_ height_ : ℤ)
    (count : Nat) (st : GenState E I) : GenState E I :=
  (List.range count).foldl (generateStep rs sqrt width_ height_) st

/-- The local struct `data` of `GenerateParticles`. -/
structure data where
  buffer : Nat
  location : Nat
  size : Nat

/-- The lambda `createVao` of `GenerateParticles`. -/
def createVao (ds : List data) (c : GlContext) : Nat × GlContext :=
  let r := glGenVertexArrays c
  let c := glBindVertexArray r.1 r.2
  (r.1, ds.foldl (fun c d =>
    glVertexAttribPointer d.location d.size
      (glEnableVertexAttribArray d.location (glBindBuffer .GL_ARRAY_BUFFER d.buffer c))) c)

/-- Lines 248 to 258 of `GenerateParticles`: the three buffers are created and filled, both
position buffers with `positions_`, the velocity buffer with `velocities_`. -/
def uploadBuffers (positions_ velocities_ : List F32) (g : Gl) (c : GlContext) :
    Gl × GlContext :=
  let r : Nat × GlContext := glGenBuffers c
  let new_position_buffer : Nat := r.1
  let c : GlContext := glBindBuffer .GL_ARRAY_BUFFER new_position_buffer r.2
  let c : GlContext := glBufferData positions_ c
  let r : Nat × GlContext := glGenBuffers c
  let old_position_buffer : Nat := r.1
  let c : GlContext := glBindBuffer .GL_ARRAY_BUFFER old_position_buffer r.2
  let c : GlContext := glBufferData positions_ c
  let r : Nat × GlContext := glGenBuffers c
  let velocity_buffer : Nat := r.1
  let c : GlContext := glBindBuffer .GL_ARRAY_BUFFER velocity_buffer r.2
  let c : GlContext := glBufferData velocities_ c
  ({ g with new_position_buffer := new_position_buffer
            old_position_buffer := old_position_buffer
            velocity_buffer := velocity_buffer }, c)

/-- Lines 277 to 282 of `GenerateParticles`: the four vertex arrays. All four are created
with the location `gl_.old_position_location` for the position buffer. -/
def createVaos (g : Gl) (c : GlContext) : Gl × GlContext :=
  let r : Nat × GlContext := createVao [⟨g.old_position_buffer, g.old_position_location, 4⟩,
                                        ⟨g.velocity_buffer, g.velocity_location, 2⟩] c
  let position1_compute_vao : Nat := r.1
  let r : Nat × GlContext := createVao [⟨g.new_position_buffer, g.old_position_location, 4⟩,
                                        ⟨g.velocity_buffer, g.velocity_location, 2⟩] r.2
  let position2_compute_vao : Nat := r.1
  let r : Nat × GlContext := createVao [⟨g.old_position_buffer, g.old_position_location, 4⟩] r.2
  let position1_draw_vao : Nat := r.1
  let r : Nat × GlContext := createVao [⟨g.new_position_buffer, g.old_position_location, 4⟩] r.2
  let position2_draw_vao : Nat := r.1
  ({ g with position1_compute_vao := position1_compute_vao
            position2_compute_vao := position2_compute_vao
            position1_draw_vao := position1_draw_vao
            position2_draw_vao := position2_draw_vao }, r.2)

/-- Lines 285 to 297 of `GenerateParticles`: the two transform feedback objects, the first
capturing into `old_position_buffer`, the second into `new_position_buffer`. -/
def createFeedbacks (g : Gl) (c : GlContext) : Gl × GlContext :=
  let c : GlContext := glBindBuffer .GL_ARRAY_BUFFER 0 c
  let c : GlContext := glBindBuffer .GL_TRANSFORM_FEEDBACK_BUFFER 0 c
  let r : Nat × GlContext := glGenTransformFeedbacks c
  let transform_feedback1 : Nat := r.1
  let c : GlContext := glBindTransformFeedback transform_feedback1 r.2
  let c : GlContext := glBindBufferBase g.old_position_buffer c
  let r : Nat × GlContext := glGenTransformFeedbacks c
  let transform_feedback2 : Nat := r.1
  let c : GlContext := glBindTransformFeedback transform_feedback2 r.2
  let c : GlContext := glBindBufferBase g.new_position_buffer c
  let c : GlContext := glBindBuffer .GL_ARRAY_BUFFER 0 c
  let c : GlContext := glBindBuffer .GL_TRANSFORM_FEEDBACK_BUFFER 0 c
  ({ g with transform_feedback1 := transform_feedback1
            transform_feedback2 := transform_feedback2 }, c)

/-- The member function `Simulation::GenerateParticles`: the generation loop, then the three
blocks of GL calls above, then the assignment of `current_` and `next_`. The arguments `e`
and `i` are the seeds the two engines take from `std::random_device`; `count` is an
`unsigned`, so below 2^32. The two `reserve` calls change no element of the vectors and are
left out. -/
def GenerateParticles {E I : Type} (rs : RandomSource E I) (sqrt : ℚ → ℚ) (e : E) (i : I)
    (count : Nat) (w : World) : World :=
  let st : GenState E I := generateLoop rs sqrt w.sim.width_ w.sim.height_ count
    ⟨w.sim.positions_, w.sim.velocities_, e, i⟩
  let r : Gl × GlContext := uploadBuffers (st.positions_.map F32.round)
    (st.velocities_.map F32.round) w.sim.gl_ w.gl
  let r : Gl × GlContext := createVaos r.1 r.2
  let r : Gl × GlContext := createFeedbacks r.1 r.2
  let g : Gl := r.1
  { sim := { w.sim with
      particles_count_ := count
      positions_ := st.positions_
      velocities_ := st.velocities_
      gl_ := g
      current_ := ⟨g.position1_compute_vao, g.transform_feedback2, g.position2_draw_vao⟩
      next_ := ⟨g.position2_compute_vao, g.transform_feedback1, g.position1_draw_vao⟩ }
    gl := r.2 }

/-- The matrix `glm::ortho(left, right, bottom, top, zNear, zFar)`, column by column. -/
def ortho (left right bottom top zNear zFar : F32) : List F32 :=
  [.finite 2 / (right - left), .finite 0, .finite 0, .finite 0,
   .finite 0, .finite 2 / (top - bottom), .finite 0, .finite 0,
   .finite 0, .finite 0, F32.neg (.finite 2 / (zFar - zNear)), .finite 0,
   F32.neg ((right + left) / (right - left)), F32.neg ((top + bottom) / (top - bottom)),
   F32.neg ((zFar + zNear) / (zFar - zNear)), .finite 1]

/-- Conversion of an `unsigned` to the signed 32-bit `GLsizei`: values from 2^31 on become
negative. -/
def toGLsizei (n : Nat) : ℤ := ((n : ℤ) + 2 ^ 31) % 2 ^ 32 - 2 ^ 31

/-- Lines 304 to 323 of `Render`: the compute pass. The compute program reads through the
vertex array `current_.compute` and its output is captured through the transform feedback
object `current_.tf`, with rasterization discarded. -/
def computePass (unit : FVec2 → FVec2) (deltaTime : F32) (s : Simulation) (c : GlContext) :
    GlContext :=
  let c : GlContext := glUseProgram s.gl_.compute_program c
  let c : GlContext := glBindVertexArray s.current_.compute c
  let c : GlContext :=
    glUniform s.gl_.canvas_dimensions_location [F32.ofInt s.width_, F32.ofInt s.height_] c
  let c : GlContext := glUniform s.gl_.delta_location [deltaTime] c
  let c : GlContext :=
    if (F32.le (.finite 0) s.mouse_x_ && F32.lt s.mouse_x_ (F32.ofInt s.width_)
        && F32.le (.finite 0) s.mouse_y_ && F32.lt s.mouse_y_ (F32.ofInt s.height_)
        && s.mouse_clicked_) = true then
      glUniform s.gl_.mouse_pos_location [s.mouse_x_, s.mouse_y_, .finite 1] c
    else
      glUniform s.gl_.mouse_pos_location [s.mouse_x_, s.mouse_y_, .finite 0] c
  let c : GlContext := glEnable .GL_RASTERIZER_DISCARD c
  let c : GlContext := glBindTransformFeedback s.current_.tf c
  let c : GlContext := glBeginTransformFeedback c
  let c : GlContext := glDrawArrays unit (toGLsizei s.particles_count_) c
  let c : GlContext := glEndTransformFeedback c
  let c : GlContext := glBindTransformFeedback 0 c
  glDisable .GL_RASTERIZER_DISCARD c

/-- Lines 325 to 333 of `Render`: the render pass, drawing through the vertex array
`current_.draw`. -/
def renderPass (unit : FVec2 → FVec2) (s : Simulation) (c : GlContext) : GlContext :=
  let c : GlContext := glUseProgram s.gl_.render_program c
  let c : GlContext := glBindVertexArray s.current_.draw c
  let c : GlContext := glViewport 0 0 s.width_ s.height_ c
  let c : GlContext := glUniform s.gl_.matrix_location
    (ortho (.finite 0) (F32.ofInt s.width_) (F32.ofInt s.height_) (.finite 0)
      (.finite (-1)) (.finite 1)) c
  glDrawArrays unit (toGLsizei s.particles_count_) c

/-- The member function `Simulation::Render`: the compute pass, the render pass, then
`std::swap(current_, next_)`. The closing `glGetError` only prints. -/
def Render (unit : FVec2 → FVec2) (deltaTime : F32) (w : World) : World :=
  { sim := { w.sim with current_ := w.sim.next_, next_ := w.sim.current_ }
    gl := renderPass unit w.sim (computePass unit deltaTime w.sim w.gl) }

/-! ## The frame loop of `main.cpp` -/

/-- What the window system supplies for one frame: framebuffer size, cursor position (as
converted to `float` by the call of `SetMousePos`), left button state and the time since the
last frame in seconds. -/
structure FrameInput where
  width : ℤ
  height : ℤ
  x : F32
  y : F32
  pressed : Bool
  delta_sec : F32

/-- The three setter calls of one iteration of the loop in `main`. -/
def applyInputs (f : FrameInput) (s : Simulation) : Simulation :=
  SetMouseClicked f.pressed (SetMousePos f.x f.y (SetCanvasDimensions f.width f.height s))

/-- The simulation part of one iteration of the loop in `main`: `glClear`, the three setters,
then `Render`. -/
def frame (unit : FVec2 → FVec2) (w : World) (f : FrameInput) : World :=
  Render unit f.delta_sec { sim := applyInputs f w.sim, gl := glClear w.gl }

/-- The loop of `main` run over a sequence of frames. -/
def runFrames (unit : FVec2 → FVec2) (w : World) (fs : List FrameInput) : World :=
  fs.foldl (frame unit) w

/-! ## Observables and specification-level functions -/

/-- The constructor `Simulation(canvas_width, canvas_height)`. The members without an
initializer (`mouse_x_`, `mouse_y_`, `mouse_clicked_`, `current_`, `next_`) keep whatever
`uninit` holds; `gl_{}` is zeroed, the vectors are empty and `particles_count_ = 0`. -/
def construct (canvas_width canvas_height : ℤ) (uninit : Simulation) : Simulation :=
  { uninit with
    width_ := canvas_width
    height_ := canvas_height
    gl_ := ⟨0, 0, 0, 0, 0, 0, 0, 0, 0, 0, 0, 0, 0, 0, 0, 0, 0, 0, 0⟩
    positions_ := []
    velocities_ := []
    particles_count_ := 0 }

/-- The value `Render` gives the uniform `mousePos` (lines 309 to 313): the cursor position,
and 1 when the cursor is inside the canvas with the button pressed, else 0. -/
def mousePosUniform (width_ height_ : ℤ) (mouse_x_ mouse_y_ : F32) (mouse_clicked_ : Bool) :
    FVec3 :=
  if (F32.le (.finite 0) mouse_x_ && F32.lt mouse_x_ (F32.ofInt width_)
      && F32.le (.finite 0) mouse_y_ && F32.lt mouse_y_ (F32.ofInt height_)
      && mouse_clicked_) = true then
    ⟨mouse_x_, mouse_y_, .finite 1⟩
  else
    ⟨mouse_x_, mouse_y_, .finite 0⟩

/-- A driver on which every compilation and link succeeds and the locations follow the order
of declaration in each shader. -/
def exampleDriver : Driver where
  compiles := fun _ => true
  links := fun _ => true
  attribLocation := fun _ name => if name = "oldVelocity" then 1 else 0
  uniformLocation := fun _ name =>
    if name = "canvasDimensions" then 1 else if name = "mousePos" then 2 else 0

/-- A driver that differs from `exampleDriver` in one answer: linking the render program
fails. -/
def renderLinkFailureDriver : Driver :=
  { exampleDriver with links := fun srcs => decide (srcs ≠ renderSources) }

/-- A driver that differs from `exampleDriver` in the locations of the two attributes of the
compute program: `oldVelocity` is at location 0 and `oldPosition` at location 1. The input
`position` of the render program is at location 0 as before. -/
def mismatchDriver : Driver :=
  { exampleDriver with
    attribLocation := fun srcs name =>
      if srcs = computeSources ∧ name = "oldPosition" then 1 else 0 }

/-- A context in which no object has been created yet. -/
def emptyContext : GlContext where
  programNames := 0
  bufferNames := 0
  vertexArrayNames := 0
  feedbackNames := 0
  shaderSource := fun _ => none
  compileStatus := fun _ => false
  attached := fun _ => []
  feedbackVaryings := fun _ => []
  linkStatus := fun _ => false
  linkedFrom := fun _ => []
  attribLocation := fun _ _ => 0
  uniformLocation := fun _ _ => 0
  uniforms := fun _ _ => []
  program := 0
  arrayBuffer := 0
  feedbackBuffer := 0
  vertexArray := 0
  transformFeedback := 0
  feedbackActive := false
  enabled := fun _ => false
  viewport := (0, 0, 0, 0)
  bufferData := fun _ => []
  attribs := fun _ _ => ⟨false, 0, 4⟩
  feedbackBase := fun _ => 0
  drawn := []

/-- A simulation object for an 800 by 600 canvas, straight from the constructor. -/
def exampleSimulation : Simulation :=
  construct 800 600 ⟨0, 0, .finite 0, .finite 0, false,
    ⟨0, 0, 0, 0, 0, 0, 0, 0, 0, 0, 0, 0, 0, 0, 0, 0, 0, 0, 0⟩, ⟨0, 0, 0⟩, ⟨0, 0, 0⟩, [], [], 0⟩

/-- What OpenGL guarantees of the locations of a linked compute program: distinct active
attributes have distinct locations, and so have distinct active uniforms. The render program
has one attribute and one uniform, so nothing is required of it. -/
def Driver.Conforming (d : Driver) : Prop :=
  d.attribLocation computeSources "oldPosition" ≠ d.attribLocation computeSources "oldVelocity"
  ∧ d.uniformLocation computeSources "deltaTime"
      ≠ d.uniformLocation computeSources "canvasDimensions"
  ∧ d.uniformLocation computeSources "deltaTime" ≠ d.uniformLocation computeSources "mousePos"
  ∧ d.uniformLocation computeSources "canvasDimensions"
      ≠ d.uniformLocation computeSources "mousePos"

/-- The buffer from which a draw with program `prog` through the vertex array `vao` fetches
the shader input `name`: the buffer recorded in the vertex array at the location the linker
gave to `name`, and none when the array at that location is not enabled (the input then
takes the default value for every vertex). -/
def attribBuffer (c : GlContext) (vao prog : Nat) (name : String) : Option Nat :=
  if (c.attribs vao (c.attribLocation prog name)).enabled = true then
    some (c.attribs vao (c.attribLocation prog name)).buffer
  else none

/-- The buffer the compute pass of the next `Render` call reads positions from: `Render`
uses the compute program with the vertex array `current_.compute`, and the compute shader
reads the input `oldPosition`. -/
def computeSource (w : World) : Option Nat :=
  attribBuffer w.gl w.sim.current_.compute w.sim.gl_.compute_program "oldPosition"

/-- The buffer the compute pass of the next `Render` call captures into: binding point 0 of
the transform feedback object `current_.tf`. -/
def captureTarget (w : World) : Nat := w.gl.feedbackBase w.sim.current_.tf

/-- The buffer the render pass of the next `Render` call reads: `Render` uses the render
program with the vertex array `current_.draw`, and the vertex shader reads the input
`position`. -/
def drawSource (w : World) : Option Nat :=
  attribBuffer w.gl w.sim.current_.draw w.sim.gl_.render_program "position"

/-- The state of the render program after a successful `SetupGl` in which it linked, when
the linker gave its input `position` the location of `oldPosition`: the program is linked
from its two shaders, and `position` is at the location `gl_.old_position_location`, the one
`GenerateParticles` builds the draw vertex arrays for. -/
structure RenderReady (w : World) : Prop where
  linked : w.gl.linkStatus w.sim.gl_.render_program = true
  sources : w.gl.linkedFrom w.sim.gl_.render_program = renderSources
  position : w.gl.attribLocation w.sim.gl_.render_program "position"
               = w.sim.gl_.old_position_location

/-- In both `State` values the draw vertex array supplies, at the location
`gl_.old_position_location`, four floats per vertex from the buffer that the transform
feedback object of the same `State` captures into. -/
structure DrawsCapture (w : World) : Prop where
  current : w.gl.attribs w.sim.current_.draw w.sim.gl_.old_position_location
              = ⟨true, w.gl.feedbackBase w.sim.current_.tf, 4⟩
  next : w.gl.attribs w.sim.next_.draw w.sim.gl_.old_position_location
           = ⟨true, w.gl.feedbackBase w.sim.next_.tf, 4⟩

/-- The context in which the compute pass of `Render` issues its draw (line 319): the state
`c` after lines 304 to 318, with the uniform `mousePos` written as `mousePosUniform`. -/
def drawContext (deltaTime : F32) (s : Simulation) (c : GlContext) : GlContext :=
  glBeginTransformFeedback (glBindTransformFeedback s.current_.tf
    (glEnable .GL_RASTERIZER_DISCARD
      (glUniform s.gl_.mouse_pos_location
        [(mousePosUniform s.width_ s.height_ s.mouse_x_ s.mouse_y_ s.mouse_clicked_).x,
         (mousePosUniform s.width_ s.height_ s.mouse_x_ s.mouse_y_ s.mouse_clicked_).y,
         (mousePosUniform s.width_ s.height_ s.mouse_x_ s.mouse_y_ s.mouse_clicked_).z]
        (glUniform s.gl_.delta_location [deltaTime]
          (glUniform s.gl_.canvas_dimensions_location
            [F32.ofInt s.width_, F32.ofInt s.height_]
            (glBindVertexArray s.current_.compute
              (glUseProgram s.gl_.compute_program c)))))))

/-- The start of `main`: `sim.SetupGl()` followed by `sim.GenerateParticles(count)`. -/
def startup {E I : Type} (d : Driver) (rs : RandomSource E I) (sqrt : ℚ → ℚ) (e : E) (i : I)
    (count : Nat) (w : World) : World :=
  GenerateParticles rs sqrt e i count (SetupGl d w).2

/-- The `vec4` of particle `i` in a sequence of floats, four per particle. -/
def vec4At (l : List F32) (i : Nat) : FVec4 :=
  ⟨l.getD (4 * i) (.finite 0), l.getD (4 * i + 1) (.finite 0), l.getD (4 * i + 2) (.finite 0),
   l.getD (4 * i + 3) (.finite 0)⟩

/-- The `vec2` of particle `i` in a sequence of floats, two per particle. -/
def vec2At (l : List F32) (i : Nat) : FVec2 :=
  ⟨l.getD (2 * i) (.finite 0), l.getD (2 * i + 1) (.finite 0)⟩

/-- The compute step of the specification for one frame: `kComputeVertexShader`, under the
inputs of the frame, applied to each of the `count` particles in order, with the given
velocities; one `vec4` per particle. -/
def computeStep (unit : FVec2 → FVec2) (velocities : List F32) (count : Nat)
    (positions : List F32) (f : FrameInput) : List F32 :=
  (List.range count).flatMap (fun i =>
    (kComputeVertexShader unit f.delta_sec ⟨F32.ofInt f.width, F32.ofInt f.height⟩
      (mousePosUniform f.width f.height f.x f.y f.pressed)
      (vec4At positions i) (vec2At velocities i)).toList)

/-- A stand-in for `normalize` on the non-zero vectors: the unit vector `(1, 0)` whatever the
argument. -/
def exampleUnit : FVec2 → FVec2 := fun _ => ⟨.finite 1, .finite 0⟩

/-- A stand-in for `std::sqrt` that is right on the two arguments the examples give it:
`sqrt(0) = 0` and `sqrt(90000) = 300`. -/
def exampleSqrt (q : ℚ) : ℚ := if q = 90000 then 300 else 0

/-- Random lambdas whose engine state counts the calls. The float lambda returns the middle
of its range in its first four calls (the position and the velocity `(0, 0)` of the first
particle); afterwards a point one tenth into the range, and one fifth into it for the third
of every four calls, so that every later particle gets the velocity `(-180, -240)`. The
integer lambda returns its lower bound. -/
def exampleRandom : RandomSource Nat Nat where
  randomPosFloat := fun e lower_bound upper_bound =>
    (if e < 4 then (lower_bound + upper_bound) / 2
     else if e % 4 = 2 then lower_bound + (upper_bound - lower_bound) / 5
     else lower_bound + (upper_bound - lower_bound) / 10, e + 1)
  randomInt := fun e lower_bound _ => (lower_bound, e + 1)

/-- Two frames on an 800 by 600 canvas: the first with the button up, the second with the
button down inside the canvas. -/
def exampleFrames : List FrameInput :=
  [⟨800, 600, .finite 100, .finite 100, false, .finite 1⟩,
   ⟨800, 600, .finite 30, .finite 40, true, .finite (1 / 2)⟩]

/-- A frame with the cursor outside the canvas. -/
def exampleFrame : FrameInput := ⟨800, 600, .finite (-5), .finite 100, true, .finite 1⟩

/-- A frame of one second on an 800 by 600 canvas with the button up and the cursor at
`(100, 100)`, where no particle is. -/
def idleFrame : FrameInput := ⟨800, 600, .finite 100, .finite 100, false, .finite 1⟩

/-- The world after the constructor and a successful `SetupGl`. -/
def exampleSetup : World := (SetupGl exampleDriver ⟨exampleSimulation, emptyContext⟩).2

/-- The world after `GenerateParticles(4)` on `exampleSetup`. -/
def exampleWorld : World := GenerateParticles exampleRandom exampleSqrt 0 0 4 exampleSetup

/-- The world after `SetupGl` and `GenerateParticles(4)` on `mismatchDriver`. -/
def mismatchWorld : World :=
  startup mismatchDriver exampleRandom exampleSqrt 0 0 4 ⟨exampleSimulation, emptyContext⟩

/-- What the failing inputs of the compute shader assume of `normalize` on the non-zero
vectors: its value is a vector of finite components of magnitude at most 1. -/
def UnitBounded (unit : FVec2 → FVec2) : Prop :=
  ∀ v : FVec2, ∃ a b : ℚ, unit v = ⟨.finite a, .finite b⟩ ∧ |a| ≤ 1 ∧ |b| ≤ 1

end BoidSim

namespace BoidSim

/-! ## Binary32 -/

theorem F32.round_zero : F32.round 0 = .finite 0 := by
  simp [F32.round]

/-- The count `log2Fuel` gives is a lower bound of the binary logarithm. -/
theorem two_pow_log2Fuel_le (fuel : Nat) : ∀ n : Nat, 0 < n → 2 ^ log2Fuel fuel n ≤ n := by
  induction fuel with
  | zero => intro n hn; simpa [log2Fuel] using hn
  | succ fuel ih =>
    intro n hn
    unfold log2Fuel
    split
    · rename_i h
      have h2 : 0 < n / 2 := Nat.div_pos h (by norm_num)
      have := ih (n / 2) h2
      rw [pow_succ]
      calc 2 ^ log2Fuel fuel (n / 2) * 2 ≤ n / 2 * 2 := Nat.mul_le_mul_right 2 this
        _ ≤ n := Nat.div_mul_le_self n 2
    · simpa using hn

/-- With enough fuel the count is the floor of the binary logarithm. -/
theorem lt_two_pow_log2Fuel (fuel : Nat) :
    ∀ n : Nat, n < 2 ^ fuel → n < 2 ^ (log2Fuel fuel n + 1) := by
  induction fuel with
  | zero => intro n hn; simp at hn; subst hn; simp [log2Fuel]
  | succ fuel ih =>
    intro n hn
    unfold log2Fuel
    split
    · have h2 : n / 2 < 2 ^ fuel := by
        rw [Nat.div_lt_iff_lt_mul (by norm_num)]
        rwa [pow_succ] at hn
      have := ih (n / 2) h2
      rw [pow_succ]
      omega
    · rename_i h
      simp
      omega

/-- The binary exponent brackets its argument: `2 ^ e ≤ q < 2 ^ (e + 1)`. -/
theorem exponent_spec (q : ℚ) (h1 : (2 : ℚ) ^ (-256 : ℤ) < q) (h2 : q < 2 ^ 256) :
    (2 : ℚ) ^ exponent q ≤ q ∧ q < (2 : ℚ) ^ (exponent q + 1) := by
  have hq : 0 < q := lt_trans (by positivity) h1
  unfold exponent
  split
  · rename_i h
    have hn : 0 < ⌊q⌋₊ := Nat.floor_pos.mpr h
    have hlt : ⌊q⌋₊ < 2 ^ 256 := by
      have : (⌊q⌋₊ : ℚ) < 2 ^ 256 := lt_of_le_of_lt (Nat.floor_le hq.le) h2
      exact_mod_cast this
    have a := two_pow_log2Fuel_le 256 _ hn
    have b := lt_two_pow_log2Fuel 256 _ hlt
    constructor
    · rw [zpow_natCast]
      calc (2 : ℚ) ^ log2Fuel 256 ⌊q⌋₊ ≤ (⌊q⌋₊ : ℚ) := by exact_mod_cast a
        _ ≤ q := Nat.floor_le hq.le
    · have : ((log2Fuel 256 ⌊q⌋₊ : ℤ) + 1) = ((log2Fuel 256 ⌊q⌋₊ + 1 : ℕ) : ℤ) := by push_cast; ring
      rw [this, zpow_natCast]
      calc q < (⌊q⌋₊ : ℚ) + 1 := Nat.lt_floor_add_one q
        _ ≤ 2 ^ (log2Fuel 256 ⌊q⌋₊ + 1) := by exact_mod_cast b
  · rename_i h
    have hq1 : q < 1 := not_le.mp h
    have hinv : 1 < q⁻¹ := one_lt_inv₀ hq |>.mpr hq1
    have hceil : 1 < ⌈q⁻¹⌉₊ := by
      have : (1 : ℚ) < ⌈q⁻¹⌉₊ := lt_of_lt_of_le hinv (Nat.le_ceil _)
      exact_mod_cast this
    rw [if_neg (by omega)]
    have hn : 0 < ⌈q⁻¹⌉₊ - 1 := by omega
    have hm1 : ((⌈q⁻¹⌉₊ - 1 : ℕ) : ℚ) < q⁻¹ := by
      have := Nat.ceil_lt_add_one (inv_pos.mpr hq).le
      have e : ((⌈q⁻¹⌉₊ - 1 : ℕ) : ℚ) = (⌈q⁻¹⌉₊ : ℚ) - 1 := by
        rw [Nat.cast_sub (by omega)]; simp
      rw [e]; linarith
    have hlt : ⌈q⁻¹⌉₊ - 1 < 2 ^ 256 := by
      have h3 : q⁻¹ < 2 ^ 256 := by
        rw [inv_lt_comm₀ hq (by positivity)]
        have : ((2 : ℚ) ^ 256)⁻¹ = 2 ^ (-256 : ℤ) := by
          rw [zpow_neg]; norm_num
        rw [this]; exact h1
      have : ((⌈q⁻¹⌉₊ - 1 : ℕ) : ℚ) < 2 ^ 256 := lt_trans hm1 h3
      exact_mod_cast this
    have a := two_pow_log2Fuel_le 256 _ hn
    have b := lt_two_pow_log2Fuel 256 _ hlt
    set k := log2Fuel 256 (⌈q⁻¹⌉₊ - 1) with hk
    constructor
    · -- q⁻¹ ≤ ceil ≤ 2^(k+1)
      have h4 : q⁻¹ ≤ (2 : ℚ) ^ (k + 1) := by
        calc q⁻¹ ≤ (⌈q⁻¹⌉₊ : ℚ) := Nat.le_ceil _
          _ ≤ 2 ^ (k + 1) := by
            have : ⌈q⁻¹⌉₊ ≤ 2 ^ (k + 1) := by omega
            exact_mod_cast this
      have e : (-((k : ℤ) + 1)) = -(((k + 1 : ℕ)) : ℤ) := by push_cast; ring
      rw [e, zpow_neg, zpow_natCast]
      rw [inv_le_comm₀ (by positivity) hq]
      exact h4
    · have h5 : (2 : ℚ) ^ k < q⁻¹ := by
        calc (2 : ℚ) ^ k ≤ ((⌈q⁻¹⌉₊ - 1 : ℕ) : ℚ) := by exact_mod_cast a
          _ < q⁻¹ := hm1
      have e : (-((k : ℤ) + 1) + 1) = -((k : ℕ) : ℤ) := by ring
      rw [e, zpow_neg, zpow_natCast]
      rw [lt_inv_comm₀ hq (by positivity)]
      exact h5


/-- Rounding to an integer moves a number by at most one half. -/
theorem roundHalfEven_sub_le (x : ℚ) : |(roundHalfEven x : ℚ) - x| ≤ 1 / 2 := by
  have h1 := Int.floor_le x
  have h2 := Int.lt_floor_add_one x
  unfold roundHalfEven
  split
  · rw [abs_le]; constructor <;> linarith
  · split
    · push_cast
      rw [abs_le]; constructor <;> linarith
    · have he : x - ⌊x⌋ = 1 / 2 := le_antisymm (not_lt.mp ‹_›) (not_lt.mp ‹_›)
      split
      · rw [abs_le]; constructor <;> linarith
      · push_cast
        rw [abs_le]; constructor <;> linarith

/-- The binary exponent of a positive number up to `2 ^ 127` is at most 127. -/
theorem exponent_le (q : ℚ) (h0 : 0 < q) (h : q ≤ 2 ^ 127) : exponent q ≤ 127 := by
  unfold exponent
  split
  · rename_i h1
    have hn : 0 < ⌊q⌋₊ := Nat.floor_pos.mpr h1
    have a := two_pow_log2Fuel_le 256 _ hn
    have b : ⌊q⌋₊ ≤ 2 ^ 127 := by
      have : (⌊q⌋₊ : ℚ) ≤ 2 ^ 127 := le_trans (Nat.floor_le h0.le) h
      exact_mod_cast this
    have c : log2Fuel 256 ⌊q⌋₊ ≤ 127 := by
      by_contra hc
      have : 2 ^ 128 ≤ 2 ^ log2Fuel 256 ⌊q⌋₊ := Nat.pow_le_pow_right (by norm_num) (by omega)
      have : (2 : ℕ) ^ 128 ≤ 2 ^ 127 := le_trans this (le_trans a b)
      norm_num at this
    exact_mod_cast c
  · split
    · norm_num
    · have : (0 : ℤ) ≤ (log2Fuel 256 (⌈q⁻¹⌉₊ - 1) : ℤ) := Int.natCast_nonneg _
      omega

/-- A result of magnitude up to `2 ^ 127` rounds to a finite value. -/
theorem F32.round_finite (q : ℚ) (h : |q| ≤ 2 ^ 127) : ∃ r : ℚ, F32.round q = .finite r := by
  unfold F32.round
  by_cases h0 : q = 0
  · exact ⟨0, by simp [h0]⟩
  · rw [if_neg h0]
    dsimp only
    have hq : 0 < |q| := abs_pos.mpr h0
    have he : max (exponent |q|) (-126) ≤ 127 := max_le (exponent_le _ hq h) (by norm_num)
    have hulp : (2 : ℚ) ^ (max (exponent |q|) (-126) - 23) ≤ 2 ^ (104 : ℤ) :=
      zpow_le_zpow_right₀ (by norm_num) (by omega)
    have hpos : (0 : ℚ) < 2 ^ (max (exponent |q|) (-126) - 23) := by positivity
    generalize (2 : ℚ) ^ (max (exponent |q|) (-126) - 23) = ulp at hulp hpos
    have hr := roundHalfEven_sub_le (q / ulp)
    have hlt : |(roundHalfEven (q / ulp) : ℚ) * ulp| < 2 ^ 128 := by
      have e : (roundHalfEven (q / ulp) : ℚ) * ulp
          = q + ((roundHalfEven (q / ulp) : ℚ) - q / ulp) * ulp := by
        field_simp
      rw [e]
      have h3 : |((roundHalfEven (q / ulp) : ℚ) - q / ulp) * ulp| ≤ 1 / 2 * ulp := by
        rw [abs_mul, abs_of_pos hpos]
        exact mul_le_mul_of_nonneg_right hr hpos.le
      have h4 : (2 : ℚ) ^ (104 : ℤ) = 2 ^ 104 := by norm_num
      rw [h4] at hulp
      calc |q + ((roundHalfEven (q / ulp) : ℚ) - q / ulp) * ulp|
          ≤ |q| + |((roundHalfEven (q / ulp) : ℚ) - q / ulp) * ulp| := abs_add _ _
        _ ≤ 2 ^ 127 + 1 / 2 * 2 ^ 104 := by linarith
        _ < 2 ^ 128 := by norm_num
    rw [if_neg (not_le.mpr hlt)]
    exact ⟨_, rfl⟩

/-- The product of a finite value and zero is zero. -/
theorem F32.finite_mul_zero (a : ℚ) : F32.finite a * F32.finite 0 = F32.finite 0 := by
  show F32.mul (F32.finite a) (F32.finite 0) = F32.finite 0
  simp [F32.mul, F32.round_zero]

/-- With `mousePos.z = 0` the attraction term of a particle that is not under the cursor is
the zero vector. -/
theorem attraction_zero (unit : FVec2 → FVec2) (hunit : UnitBounded unit) (target : FVec2)
    (ht : target ≠ ⟨.finite 0, .finite 0⟩) :
    ((normalize unit target).scale (.finite 300)).scale (.finite 0)
      = ⟨.finite 0, .finite 0⟩ := by
  obtain ⟨a, b, hab, ha, hb⟩ := hunit target
  have h300 : ∀ x : ℚ, |x| ≤ 1 → ∃ r : ℚ, F32.finite x * F32.finite 300 = F32.finite r := by
    intro x hx
    show ∃ r : ℚ, F32.mul (F32.finite x) (F32.finite 300) = F32.finite r
    simp only [F32.mul]
    apply F32.round_finite
    rw [abs_mul]
    have : |(300 : ℚ)| = 300 := abs_of_pos (by norm_num)
    rw [this]
    calc |x| * 300 ≤ 1 * 300 := by nlinarith [abs_nonneg x]
      _ ≤ 2 ^ 127 := by norm_num
  obtain ⟨ra, hra⟩ := h300 a ha
  obtain ⟨rb, hrb⟩ := h300 b hb
  simp only [normalize, if_neg ht, hab, FVec2.scale, hra, hrb, F32.finite_mul_zero]

theorem exampleUnit_bounded : UnitBounded exampleUnit :=
  fun _ => ⟨1, 0, rfl, by norm_num, by norm_num⟩

/-- With an inactive pointer that is not exactly on the particle, the output of the compute
shader does not depend on the direction `normalize` returns. -/
theorem kComputeVertexShader_inactive (u1 u2 : FVec2 → FVec2) (h1 : UnitBounded u1)
    (h2 : UnitBounded u2) (deltaTime : F32) (canvasDimensions : FVec2) (mx my : F32)
    (oldPosition : FVec4) (oldVelocity : FVec2)
    (ht : (FVec3.xy ⟨mx, my, .finite 0⟩).sub oldPosition.xy ≠ ⟨.finite 0, .finite 0⟩) :
    kComputeVertexShader u1 deltaTime canvasDimensions ⟨mx, my, .finite 0⟩ oldPosition
        oldVelocity
      = kComputeVertexShader u2 deltaTime canvasDimensions ⟨mx, my, .finite 0⟩ oldPosition
          oldVelocity := by
  simp only [kComputeVertexShader, attraction_zero u1 h1 _ ht, attraction_zero u2 h2 _ ht]

set_option maxRecDepth 100000 in
/-- C4, failing input. Canvas 800 by 600, delta time 1, button up, cursor at `(100, 100)`,
`normalize` as in C3: for the particle at `(-2^-24, 10)` with velocity `(0, 0)` the x the
compute shader writes is 800, the canvas width, so `x < width` fails; the function `wrap`
that the shader defines and does not call gives x = 0 for the same position. -/
theorem compute_output_reaches_canvas_width (unit : FVec2 → FVec2)
    (hunit : UnitBounded unit) :
    (kComputeVertexShader unit (.finite 1) ⟨F32.ofInt 800, F32.ofInt 600⟩
        (mousePosUniform 800 600 (.finite 100) (.finite 100) false)
        ⟨.finite (-(1 / 2 ^ 24)), .finite 10, .finite 2, .finite 0⟩
        ⟨.finite 0, .finite 0⟩).x = F32.ofInt 800
    ∧ F32.lt (kComputeVertexShader unit (.finite 1) ⟨F32.ofInt 800, F32.ofInt 600⟩
        (mousePosUniform 800 600 (.finite 100) (.finite 100) false)
        ⟨.finite (-(1 / 2 ^ 24)), .finite 10, .finite 2, .finite 0⟩
        ⟨.finite 0, .finite 0⟩).x (F32.ofInt 800) = false
    ∧ wrap ⟨.finite (-(1 / 2 ^ 24)), .finite 10⟩ ⟨F32.ofInt 800, F32.ofInt 600⟩
        = ⟨.finite 0, .finite 10⟩ := by
  have hm : mousePosUniform 800 600 (.finite 100) (.finite 100) false
      = ⟨.finite 100, .finite 100, .finite 0⟩ := by decide!
  rw [hm, kComputeVertexShader_inactive unit exampleUnit hunit exampleUnit_bounded _ _ _ _ _ _
    (by decide!)]
  decide!

theorem compute_output_reaches_canvas_width_witness :
    UnitBounded exampleUnit
    ∧ (kComputeVertexShader exampleUnit (.finite 1) ⟨F32.ofInt 800, F32.ofInt 600⟩
        (mousePosUniform 800 600 (.finite 100) (.finite 100) false)
        ⟨.finite (-(1 / 2 ^ 24)), .finite 10, .finite 2, .finite 0⟩
        ⟨.finite 0, .finite 0⟩).x = F32.ofInt 800 :=
  ⟨exampleUnit_bounded,
   (compute_output_reaches_canvas_width exampleUnit exampleUnit_bounded).1⟩

/-! ## The render shaders -/

theorem toInt_intCast (n : ℤ) : toInt (n : ℚ) = n := by
  unfold toInt
  split <;> simp

/-- The color `kFragmentShader` computes, component by component. -/
theorem kFragmentShader_eq (m : ℚ) :
    kFragmentShader m
      = if |m| / 300 < 1 / 2 then ⟨|m| / 150, 1, 0, 1⟩ else ⟨1, 2 - |m| / 150, 0, 1⟩ := by
  by_cases h : |m| / 300 < 1 / 2
  · simp only [kFragmentShader, if_pos h, mix4, mix, green, yellow, Vec4.mk.injEq]
    refine ⟨by ring, by ring, by ring, by ring⟩
  · simp only [kFragmentShader, if_neg h, mix4, mix, red, yellow, Vec4.mk.injEq]
    refine ⟨by ring, by ring, by ring, by ring⟩

/-- C5. The render stage maps speed 0 to green `(0,1,0,1)`, speed 150 to yellow `(1,1,0,1)`
and speed 300 to red `(1,0,0,1)`; and the ramp has no jump at one half: the lower branch
`mix(green, yellow, s * 2)`, which is `(2s, 1, 0, 1)` for every `s`, has at `s = 1/2` the
value of the upper branch `mix(yellow, red, (s - 0.5) * 2)` there, which is yellow; and for
every speed the red and green components of the color are within `2 |s - 1/2|` of those of
yellow, with blue 0 and alpha 1. -/
theorem color_ramp_stops (transform : Fin 4 → Vec4) (x y z : ℚ) :
    renderColor transform ⟨x, y, z, 0⟩ = ⟨0, 1, 0, 1⟩
    ∧ renderColor transform ⟨x, y, z, 150⟩ = ⟨1, 1, 0, 1⟩
    ∧ renderColor transform ⟨x, y, z, 300⟩ = ⟨1, 0, 0, 1⟩
    ∧ (∀ s : ℚ, mix4 green yellow (s * 2) = ⟨2 * s, 1, 0, 1⟩)
    ∧ mix4 green yellow ((1 / 2 : ℚ) * 2) = mix4 yellow red (((1 / 2 : ℚ) - 1 / 2) * 2)
    ∧ mix4 yellow red (((1 / 2 : ℚ) - 1 / 2) * 2) = kFragmentShader 150
    ∧ (∀ m : ℚ, |(kFragmentShader m).x - 1| ≤ 2 * |(|m| / 300) - 1 / 2|
        ∧ |(kFragmentShader m).y - 1| ≤ 2 * |(|m| / 300) - 1 / 2|
        ∧ (kFragmentShader m).z = 0 ∧ (kFragmentShader m).w = 1) := by
  have h0 : toInt (0 : ℚ) = 0 := by simpa using toInt_intCast 0
  have h150 : toInt (150 : ℚ) = 150 := by simpa using toInt_intCast 150
  have h300 : toInt (300 : ℚ) = 300 := by simpa using toInt_intCast 300
  refine ⟨?_, ?_, ?_, ?_, ?_, ?_, ?_⟩
  · simp only [renderColor, kVertexShader, h0, kFragmentShader_eq]
    norm_num
  · simp only [renderColor, kVertexShader, h150, kFragmentShader_eq]
    norm_num
  · simp only [renderColor, kVertexShader, h300, kFragmentShader_eq]
    norm_num
  · intro s
    simp only [mix4, mix, green, yellow, Vec4.mk.injEq]
    refine ⟨by ring, by ring, by ring, by ring⟩
  · simp only [mix4, mix, green, yellow, red, Vec4.mk.injEq]
    norm_num
  · rw [kFragmentShader_eq]
    simp only [mix4, mix, yellow, red]
    norm_num
  · intro m
    rw [kFragmentShader_eq]
    by_cases h : |m| / 300 < 1 / 2
    · rw [if_pos h]
      refine ⟨?_, ?_, rfl, rfl⟩
      · have e : |m| / 150 - 1 = 2 * (|m| / 300 - 1 / 2) := by ring
        simp only [e, abs_mul]
        norm_num
      · simp
    · rw [if_neg h]
      refine ⟨?_, ?_, rfl, rfl⟩
      · simp
      · have e : 2 - |m| / 150 - 1 = -(2 * (|m| / 300 - 1 / 2)) := by ring
        simp only [e, abs_neg, abs_mul]
        norm_num

/-- C9, as stated, fails: for the stored speed component `w = 1/2` the render stage gives
the color of speed 0, pure green, and not the ramp at `s = |1/2| / 300`. -/
theorem render_color_not_ramp_of_stored_speed :
    renderColor (fun _ => ⟨0, 0, 0, 0⟩) ⟨0, 0, 1, 1 / 2⟩ = ⟨0, 1, 0, 1⟩
    ∧ specRamp (|(1 / 2 : ℚ)| / 300) = ⟨1 / 300, 1, 0, 1⟩
    ∧ renderColor (fun _ => ⟨0, 0, 0, 0⟩) ⟨0, 0, 1, 1 / 2⟩ ≠ specRamp (|(1 / 2 : ℚ)| / 300) := by
  have ht : toInt (1 / 2 : ℚ) = 0 := by
    unfold toInt
    rw [if_pos (by norm_num)]
    rw [Int.floor_eq_iff]
    norm_num
  have h1 : renderColor (fun _ => ⟨0, 0, 0, 0⟩) ⟨0, 0, 1, 1 / 2⟩ = ⟨0, 1, 0, 1⟩ := by
    simp only [renderColor, kVertexShader, ht, kFragmentShader_eq]
    norm_num
  have h2 : specRamp (|(1 / 2 : ℚ)| / 300) = ⟨1 / 300, 1, 0, 1⟩ := by
    unfold specRamp
    rw [if_pos (by rw [abs_of_pos] <;> norm_num)]
    simp only [mix4, mix, green, yellow, Vec4.mk.injEq]
    rw [abs_of_pos (by norm_num)]
    norm_num
  refine ⟨h1, h2, ?_⟩
  rw [h1, h2]
  intro h
  have hx := congrArg Vec4.x h
  norm_num at hx

/-- C9, amended. For every stored speed component `w`, the color the render stage gives the
particle is the three-stop ramp evaluated at `s = |int(w)| / 300`, where `int(w)` is `w`
rounded toward zero: `lerp(green, yellow, 2s)` when `s < 0.5` and
`lerp(yellow, red, 2s - 1)` when `s >= 0.5`. -/
theorem render_color_is_ramp_of_truncated_speed (transform : Fin 4 → Vec4) (position : Vec4) :
    renderColor transform position = specRamp (|((toInt position.w : ℤ) : ℚ)| / 300) := by
  simp only [renderColor, kVertexShader, kFragmentShader, specRamp]
  split
  · congr 1
    ring
  · congr 1
    ring

/-- C10. The ramp has no upper clamp: for every speed magnitude above 300 (normalized speed
`s > 1`) the fragment color has red and alpha 1, blue 0 and green `2 - 2s < 0`, so it is
not pure red and has a component outside `[0, 1]`. -/
theorem fragment_color_above_max_speed (speedMagnitude : ℚ) (h : 300 < |speedMagnitude|) :
    1 < |speedMagnitude| / 300
    ∧ kFragmentShader speedMagnitude = ⟨1, 2 - 2 * (|speedMagnitude| / 300), 0, 1⟩
    ∧ 2 - 2 * (|speedMagnitude| / 300) < 0
    ∧ kFragmentShader speedMagnitude ≠ red := by
  have hs : 1 < |speedMagnitude| / 300 := by
    rw [lt_div_iff₀ (by norm_num)]
    linarith
  have hc : kFragmentShader speedMagnitude = ⟨1, 2 - 2 * (|speedMagnitude| / 300), 0, 1⟩ := by
    rw [kFragmentShader_eq, if_neg (by linarith)]
    simp only [Vec4.mk.injEq, true_and, and_true]
    ring
  refine ⟨hs, hc, by linarith, ?_⟩
  rw [hc]
  intro hred
  have hy := congrArg Vec4.y hred
  simp only [red] at hy
  linarith

theorem fragment_color_above_max_speed_witness :
    (300 : ℚ) < |(450 : ℚ)| ∧ kFragmentShader 450 = ⟨1, 2 - 2 * (|(450 : ℚ)| / 300), 0, 1⟩ :=
  have h : (300 : ℚ) < |(450 : ℚ)| := by
    rw [abs_of_pos] <;> norm_num
  ⟨h, (fragment_color_above_max_speed 450 h).2.1⟩

/-! ## `SetupGl` -/

/-- The result of `SetupGl` is decided by the four compilations and the link of the compute
program; the link status of the render program is never read. -/
theorem SetupGl_fst (d : Driver) (w : World) :
    (SetupGl d w).1 = (d.compiles .kComputeVertexShader && d.compiles .kComputeFragmentShader
      && d.links [.kComputeVertexShader, .kComputeFragmentShader]
      && d.compiles .kVertexShader && d.compiles .kFragmentShader) := by
  cases h1 : d.compiles .kComputeVertexShader <;>
  cases h2 : d.compiles .kComputeFragmentShader <;>
  cases h3 : d.links [.kComputeVertexShader, .kComputeFragmentShader] <;>
  cases h4 : d.compiles .kVertexShader <;>
  cases h5 : d.compiles .kFragmentShader <;>
  simp [SetupGl, CheckShaderError, CheckLinkError, glCreateProgram, glCreateShader,
    glShaderSource, glCompileShader, glAttachShader, glLinkProgram, glTransformFeedbackVaryings,
    glDeleteProgram, glUseProgram, glEnable, h1, h2, h3, h4, h5, Function.update]

/-- After a successful `SetupGl` in which the render program linked and the linker gave
`position` the location of `oldPosition`, the render program is ready to read through the
draw vertex arrays that `GenerateParticles` builds. -/
theorem SetupGl_renderReady (d : Driver) (w : World) (hok : (SetupGl d w).1 = true)
    (hlink : d.links renderSources = true)
    (hloc : d.attribLocation renderSources "position"
      = d.attribLocation computeSources "oldPosition") :
    RenderReady (SetupGl d w).2 := by
  rw [SetupGl_fst] at hok
  simp only [Bool.and_eq_true] at hok
  obtain ⟨⟨⟨⟨h1, h2⟩, h3⟩, h4⟩, h5⟩ := hok
  simp only [renderSources, computeSources] at hlink hloc
  generalize hw : (SetupGl d w).2 = w1
  simp [SetupGl, CheckShaderError, CheckLinkError, glCreateProgram, glCreateShader,
    glShaderSource, glCompileShader, glAttachShader, glLinkProgram, glTransformFeedbackVaryings,
    glDeleteProgram, glUseProgram, glEnable, glGetAttribLocation, glGetUniformLocation,
    h1, h2, h3, h4, h5, hlink] at hw
  subst hw
  constructor <;> simp [renderSources, hloc, hlink]


/-- C7, failing input. On a driver where the four shaders compile and the compute program
links but the link of the render program fails, `SetupGl` returns true, with the render
program left unlinked in the context. -/
theorem SetupGl_true_when_render_link_fails :
    renderLinkFailureDriver.links renderSources = false
    ∧ (SetupGl renderLinkFailureDriver ⟨exampleSimulation, emptyContext⟩).1 = true
    ∧ (SetupGl renderLinkFailureDriver ⟨exampleSimulation, emptyContext⟩).2.gl.linkStatus
        (SetupGl renderLinkFailureDriver ⟨exampleSimulation, emptyContext⟩).2.sim.gl_.render_program
        = false := by
  decide

/-! ## `GenerateParticles`: the generation loop -/

theorem generateLoop_succ {E I : Type} (rs : RandomSource E I) (sqrt : ℚ → ℚ)
    (width_ height_ : ℤ) (n : Nat) (st : GenState E I) :
    generateLoop rs sqrt width_ height_ (n + 1) st
      = generateStep rs sqrt width_ height_ (generateLoop rs sqrt width_ height_ n st) n := by
  simp [generateLoop, List.range_succ, List.foldl_append]

/-- One iteration appends two floats to `velocities_` and four to `positions_`, the fourth
being `sqrt` of the squares of the two floats that `velocities_` then holds at the indices
`2 * i` and `2 * i + 1` taken modulo 2^32. -/
theorem generateStep_shape {E I : Type} (rs : RandomSource E I) (sqrt : ℚ → ℚ)
    (width_ height_ : ℤ) (st : GenState E I) (n : Nat) :
    ∃ x y k vx vy : ℚ,
      (generateStep rs sqrt width_ height_ st n).velocities_ = st.velocities_ ++ [vx, vy]
      ∧ (generateStep rs sqrt width_ height_ st n).positions_
        = st.positions_ ++ [x, y, k,
            sqrt ((st.velocities_ ++ [vx, vy]).getD ((2 * n) % 2 ^ 32) 0 ^ 2
              + (st.velocities_ ++ [vx, vy]).getD ((2 * n + 1) % 2 ^ 32) 0 ^ 2)] := by
  refine ⟨(rs.randomPosFloat st.floatEngine ((width_ : ℚ) / 2 - 100) ((width_ : ℚ) / 2 + 100)).1,
    (rs.randomPosFloat (rs.randomPosFloat st.floatEngine ((width_ : ℚ) / 2 - 100) ((width_ : ℚ) / 2 + 100)).2
      ((height_ : ℚ) / 2 - 100) ((height_ : ℚ) / 2 + 100)).1,
    ((rs.randomInt st.intEngine 1 8).1 : ℚ),
    (rs.randomPosFloat (rs.randomPosFloat (rs.randomPosFloat st.floatEngine ((width_ : ℚ) / 2 - 100) ((width_ : ℚ) / 2 + 100)).2
      ((height_ : ℚ) / 2 - 100) ((height_ : ℚ) / 2 + 100)).2 (-300) 300).1,
    (rs.randomPosFloat (rs.randomPosFloat (rs.randomPosFloat (rs.randomPosFloat st.floatEngine ((width_ : ℚ) / 2 - 100) ((width_ : ℚ) / 2 + 100)).2
      ((height_ : ℚ) / 2 - 100) ((height_ : ℚ) / 2 + 100)).2 (-300) 300).2 (-300) 300).1,
    ?_, ?_⟩
  · simp [generateStep]
  · simp [generateStep]

/-- Invariant of the generation loop started on empty vectors: after `n` iterations the
vectors hold four and two floats per particle, and the fourth float of particle `j` is `sqrt`
of the sum of the squares of the velocity floats at the indices `2 * j` and `2 * j + 1` taken
modulo 2^32. -/
theorem generateLoop_spec {E I : Type} (rs : RandomSource E I) (sqrt : ℚ → ℚ)
    (width_ height_ : ℤ) (e : E) (i : I) (n : Nat) :
    (generateLoop rs sqrt width_ height_ n ⟨[], [], e, i⟩).positions_.length = 4 * n
    ∧ (generateLoop rs sqrt width_ height_ n ⟨[], [], e, i⟩).velocities_.length = 2 * n
    ∧ ∀ j, j < n →
        (generateLoop rs sqrt width_ height_ n ⟨[], [], e, i⟩).positions_[4 * j + 3]?
          = some (sqrt
              ((generateLoop rs sqrt width_ height_ n ⟨[], [], e, i⟩).velocities_.getD
                  ((2 * j) % 2 ^ 32) 0 ^ 2
               + (generateLoop rs sqrt width_ height_ n ⟨[], [], e, i⟩).velocities_.getD
                  ((2 * j + 1) % 2 ^ 32) 0 ^ 2)) := by
  induction n with
  | zero => simp [generateLoop]
  | succ n ih =>
    rw [generateLoop_succ]
    generalize generateLoop rs sqrt width_ height_ n ⟨[], [], e, i⟩ = st at ih
    obtain ⟨hp, hv, hs⟩ := ih
    obtain ⟨x, y, k, vx, vy, hV, hP⟩ := generateStep_shape rs sqrt width_ height_ st n
    rw [hP, hV]
    refine ⟨?_, ?_, ?_⟩
    · simp [hp]
      omega
    · simp [hv]
      omega
    · intro j hj
      have m1 : (2 * j) % 2 ^ 32 ≤ 2 * j := Nat.mod_le _ _
      have m2 : (2 * j + 1) % 2 ^ 32 ≤ 2 * j + 1 := Nat.mod_le _ _
      rcases Nat.lt_succ_iff_lt_or_eq.mp hj with hlt | heq
      · rw [List.getElem?_append_left (by omega), hs j hlt]
        simp only [List.getD_eq_getElem?_getD]
        rw [List.getElem?_append_left (by omega), List.getElem?_append_left (by omega)]
      · subst heq
        rw [List.getElem?_append_right (by omega)]
        simp [hp]

/-- In the first 2^31 iterations the indices do not wrap: the fourth float of particle `j`
is `sqrt` of the sum of the squares of the two velocity floats of the same particle. -/
theorem generateLoop_speed {E I : Type} (rs : RandomSource E I) (sqrt : ℚ → ℚ)
    (width_ height_ : ℤ) (e : E) (i : I) (n j : Nat) (hj : j < n) (h31 : j < 2 ^ 31) :
    ∃ vx vy : ℚ,
      (generateLoop rs sqrt width_ height_ n ⟨[], [], e, i⟩).velocities_[2 * j]? = some vx
      ∧ (generateLoop rs sqrt width_ height_ n ⟨[], [], e, i⟩).velocities_[2 * j + 1]? = some vy
      ∧ (generateLoop rs sqrt width_ height_ n ⟨[], [], e, i⟩).positions_[4 * j + 3]?
          = some (sqrt (vx ^ 2 + vy ^ 2)) := by
  obtain ⟨_, hv, hs⟩ := generateLoop_spec rs sqrt width_ height_ e i n
  have m1 : (2 * j) % 2 ^ 32 = 2 * j := Nat.mod_eq_of_lt (by omega)
  have m2 : (2 * j + 1) % 2 ^ 32 = 2 * j + 1 := Nat.mod_eq_of_lt (by omega)
  have h1 : 2 * j < (generateLoop rs sqrt width_ height_ n ⟨[], [], e, i⟩).velocities_.length := by
    omega
  have h2 : 2 * j + 1
      < (generateLoop rs sqrt width_ height_ n ⟨[], [], e, i⟩).velocities_.length := by
    omega
  refine ⟨_, _, List.getElem?_eq_getElem h1, List.getElem?_eq_getElem h2, ?_⟩
  rw [hs j hj, m1, m2]
  simp [List.getD_eq_getElem?_getD, List.getElem?_eq_getElem h1, List.getElem?_eq_getElem h2]

/-- The velocities `exampleRandom` generates: `(0, 0)` for the first particle and
`(-180, -240)` for every other one. -/
theorem exampleRandom_velocities (sqrt : ℚ → ℚ) (width_ height_ : ℤ) (n : Nat) :
    (generateLoop exampleRandom sqrt width_ height_ n ⟨[], [], 0, 0⟩).floatEngine = 4 * n
    ∧ (generateLoop exampleRandom sqrt width_ height_ n ⟨[], [], 0, 0⟩).velocities_.length
        = 2 * n
    ∧ ∀ j, j < n →
        (generateLoop exampleRandom sqrt width_ height_ n ⟨[], [], 0, 0⟩).velocities_[2 * j]?
          = some (if j = 0 then 0 else -180)
        ∧ (generateLoop exampleRandom sqrt width_ height_ n
            ⟨[], [], 0, 0⟩).velocities_[2 * j + 1]?
          = some (if j = 0 then 0 else -240) := by
  induction n with
  | zero => simp [generateLoop]
  | succ n ih =>
    rw [generateLoop_succ]
    generalize generateLoop exampleRandom sqrt width_ height_ n ⟨[], [], 0, 0⟩ = st at ih
    obtain ⟨he, hv, hs⟩ := ih
    have hV : (generateStep exampleRandom sqrt width_ height_ st n).velocities_
        = st.velocities_ ++ [if n = 0 then 0 else -180, if n = 0 then 0 else -240] := by
      simp only [generateStep, exampleRandom, he, List.append_assoc, List.singleton_append]
      congr 2
      · by_cases h : n = 0
        · subst h; norm_num
        · have h4 : ¬ (4 * n + 1 + 1 < 4) := by omega
          have h5 : (4 * n + 1 + 1) % 4 = 2 := by omega
          simp only [h4, h5, h, if_false, if_true]
          norm_num
      · by_cases h : n = 0
        · subst h; norm_num
        · have h4 : ¬ (4 * n + 1 + 1 + 1 < 4) := by omega
          have h5 : ¬ ((4 * n + 1 + 1 + 1) % 4 = 2) := by omega
          simp only [h4, h5, h, if_false]
          norm_num
    have hE : (generateStep exampleRandom sqrt width_ height_ st n).floatEngine
        = 4 * (n + 1) := by
      simp only [generateStep, exampleRandom, he]
      omega
    rw [hV, hE]
    refine ⟨rfl, ?_, ?_⟩
    · simp [hv]
      omega
    · intro j hj
      rcases Nat.lt_succ_iff_lt_or_eq.mp hj with hlt | heq
      · rw [List.getElem?_append_left (by omega), List.getElem?_append_left (by omega)]
        exact hs j hlt
      · subst heq
        rw [List.getElem?_append_right (by omega), List.getElem?_append_right (by omega)]
        simp [hv]


/-! ## `GenerateParticles`: what it leaves in the object -/

theorem GenerateParticles_positions {E I : Type} (rs : RandomSource E I) (sqrt : ℚ → ℚ)
    (e : E) (i : I) (count : Nat) (w : World) :
    (GenerateParticles rs sqrt e i count w).sim.positions_
      = (generateLoop rs sqrt w.sim.width_ w.sim.height_ count
          ⟨w.sim.positions_, w.sim.velocities_, e, i⟩).positions_ := rfl

theorem GenerateParticles_velocities {E I : Type} (rs : RandomSource E I) (sqrt : ℚ → ℚ)
    (e : E) (i : I) (count : Nat) (w : World) :
    (GenerateParticles rs sqrt e i count w).sim.velocities_
      = (generateLoop rs sqrt w.sim.width_ w.sim.height_ count
          ⟨w.sim.positions_, w.sim.velocities_, e, i⟩).velocities_ := rfl

/-- C6, failing input. `GenerateParticles(2^31 + 1)` on a newly constructed
`Simulation(800, 600)`, with random generators that give the first particle the velocity
`(0, 0)` and every other particle the velocity `(-180, -240)`: for the particle with index
2^31 the index `2 * i` wraps to 0, and the fourth position float of that particle is
`sqrt(0^2 + 0^2)`, taken of the velocity of particle 0, where the claim gives
`sqrt((-180)^2 + (-240)^2)`. -/
theorem generated_speed_reads_wrapped_index (sqrt : ℚ → ℚ) :
    (GenerateParticles exampleRandom sqrt 0 0 (2 ^ 31 + 1) exampleSetup).sim.velocities_[
        2 * 2 ^ 31]? = some (-180 : ℚ)
    ∧ (GenerateParticles exampleRandom sqrt 0 0 (2 ^ 31 + 1) exampleSetup).sim.velocities_[
        2 * 2 ^ 31 + 1]? = some (-240 : ℚ)
    ∧ (GenerateParticles exampleRandom sqrt 0 0 (2 ^ 31 + 1) exampleSetup).sim.positions_[
        4 * 2 ^ 31 + 3]? = some (sqrt (0 ^ 2 + 0 ^ 2))
    ∧ ((0 : ℚ) ^ 2 + 0 ^ 2 ≠ (-180) ^ 2 + (-240) ^ 2) := by
  have hp : exampleSetup.sim.positions_ = [] := rfl
  have hv : exampleSetup.sim.velocities_ = [] := rfl
  rw [GenerateParticles_positions, GenerateParticles_velocities, hp, hv]
  obtain ⟨_, _, hs⟩ := generateLoop_spec exampleRandom sqrt exampleSetup.sim.width_
    exampleSetup.sim.height_ 0 0 (2 ^ 31 + 1)
  obtain ⟨_, _, hr⟩ := exampleRandom_velocities sqrt exampleSetup.sim.width_
    exampleSetup.sim.height_ (2 ^ 31 + 1)
  have h0 := hr 0 (by norm_num)
  have h1 := hr (2 ^ 31) (by norm_num)
  have hw : (2 ^ 31 : ℕ) ≠ 0 := by norm_num
  rw [if_neg hw, if_neg hw] at h1
  refine ⟨h1.1, h1.2, ?_, by norm_num⟩
  rw [hs (2 ^ 31) (by norm_num)]
  have m1 : (2 * 2 ^ 31) % 2 ^ 32 = 2 * 0 := by norm_num
  have m2 : (2 * 2 ^ 31 + 1) % 2 ^ 32 = 2 * 0 + 1 := by norm_num
  rw [m1, m2]
  simp only [List.getD_eq_getElem?_getD, h0.1, h0.2, if_true, Option.getD_some]

/-! ## `GenerateParticles`: the GL objects -/

/-- The vertex array state `createVao` builds for one attribute. -/
theorem createVao_one (b l n : Nat) (c : GlContext) :
    createVao [⟨b, l, n⟩] c
      = (c.vertexArrayNames + 1,
         { c with
           vertexArrayNames := c.vertexArrayNames + 1
           vertexArray := c.vertexArrayNames + 1
           arrayBuffer := b
           attribs := Function.update c.attribs (c.vertexArrayNames + 1)
             (Function.update (fun _ => ⟨false, 0, 4⟩) l ⟨true, b, n⟩) }) := by
  simp [createVao, glGenVertexArrays, glBindVertexArray, glEnableVertexAttribArray,
    glVertexAttribPointer, glBindBuffer]

/-- The vertex array state `createVao` builds for two attributes. -/
theorem createVao_two (b l n b2 l2 n2 : Nat) (c : GlContext) :
    createVao [⟨b, l, n⟩, ⟨b2, l2, n2⟩] c
      = (c.vertexArrayNames + 1,
         { c with
           vertexArrayNames := c.vertexArrayNames + 1
           vertexArray := c.vertexArrayNames + 1
           arrayBuffer := b2
           attribs := Function.update c.attribs (c.vertexArrayNames + 1)
             (Function.update (Function.update (fun _ => ⟨false, 0, 4⟩) l ⟨true, b, n⟩)
               l2 ⟨true, b2, n2⟩) }) := by
  simp [createVao, glGenVertexArrays, glBindVertexArray, glEnableVertexAttribArray,
    glVertexAttribPointer, glBindBuffer]

theorem uploadBuffers_eq (positions_ velocities_ : List F32) (g : Gl) (c : GlContext) :
    uploadBuffers positions_ velocities_ g c
      = ({ g with new_position_buffer := c.bufferNames + 1
                  old_position_buffer := c.bufferNames + 2
                  velocity_buffer := c.bufferNames + 3 },
         { c with
           bufferNames := c.bufferNames + 3
           arrayBuffer := c.bufferNames + 3
           bufferData := Function.update (Function.update (Function.update c.bufferData
             (c.bufferNames + 1) positions_) (c.bufferNames + 2) positions_)
             (c.bufferNames + 3) velocities_ }) := by
  simp [uploadBuffers, glGenBuffers, glBindBuffer, glBufferData]

theorem createVaos_eq (g : Gl) (c : GlContext) :
    createVaos g c
      = ({ g with position1_compute_vao := c.vertexArrayNames + 1
                  position2_compute_vao := c.vertexArrayNames + 2
                  position1_draw_vao := c.vertexArrayNames + 3
                  position2_draw_vao := c.vertexArrayNames + 4 },
         { c with
           vertexArrayNames := c.vertexArrayNames + 4
           vertexArray := c.vertexArrayNames + 4
           arrayBuffer := g.new_position_buffer
           attribs := Function.update (Function.update (Function.update (Function.update
             c.attribs
             (c.vertexArrayNames + 1)
               (Function.update (Function.update (fun _ => ⟨false, 0, 4⟩)
                 g.old_position_location ⟨true, g.old_position_buffer, 4⟩)
                 g.velocity_location ⟨true, g.velocity_buffer, 2⟩))
             (c.vertexArrayNames + 2)
               (Function.update (Function.update (fun _ => ⟨false, 0, 4⟩)
                 g.old_position_location ⟨true, g.new_position_buffer, 4⟩)
                 g.velocity_location ⟨true, g.velocity_buffer, 2⟩))
             (c.vertexArrayNames + 3)
               (Function.update (fun _ => ⟨false, 0, 4⟩)
                 g.old_position_location ⟨true, g.old_position_buffer, 4⟩))
             (c.vertexArrayNames + 4)
               (Function.update (fun _ => ⟨false, 0, 4⟩)
                 g.old_position_location ⟨true, g.new_position_buffer, 4⟩) }) := by
  simp [createVaos, createVao_one, createVao_two]

theorem createFeedbacks_eq (g : Gl) (c : GlContext) :
    createFeedbacks g c
      = ({ g with transform_feedback1 := c.feedbackNames + 1
                  transform_feedback2 := c.feedbackNames + 2 },
         { c with
           feedbackNames := c.feedbackNames + 2
           transformFeedback := c.feedbackNames + 2
           arrayBuffer := 0
           feedbackBuffer := 0
           feedbackBase := Function.update (Function.update c.feedbackBase
             (c.feedbackNames + 1) g.old_position_buffer)
             (c.feedbackNames + 2) g.new_position_buffer }) := by
  simp [createFeedbacks, glBindBuffer, glGenTransformFeedbacks, glBindTransformFeedback,
    glBindBufferBase]

/-- In the state `GenerateParticles` leaves, each `State` pairs a transform feedback object
with the draw vertex array over the same buffer. -/
theorem GenerateParticles_drawsCapture {E I : Type} (rs : RandomSource E I) (sqrt : ℚ → ℚ)
    (e : E) (i : I) (count : Nat) (w : World) :
    DrawsCapture (GenerateParticles rs sqrt e i count w) := by
  constructor <;>
    simp [GenerateParticles, uploadBuffers_eq, createVaos_eq, createFeedbacks_eq,
      Function.update_apply]

theorem GenerateParticles_renderReady {E I : Type} (rs : RandomSource E I) (sqrt : ℚ → ℚ)
    (e : E) (i : I) (count : Nat) (w : World) (h : RenderReady w) :
    RenderReady (GenerateParticles rs sqrt e i count w) := by
  obtain ⟨h1, h2, h3⟩ := h
  constructor <;>
    simp [GenerateParticles, uploadBuffers_eq, createVaos_eq, createFeedbacks_eq, *]

theorem GenerateParticles_count {E I : Type} (rs : RandomSource E I) (sqrt : ℚ → ℚ)
    (e : E) (i : I) (count : Nat) (w : World) :
    (GenerateParticles rs sqrt e i count w).sim.particles_count_ = count := rfl

/-! ## `Render` -/

/-- The two branches of lines 309 to 313 set the uniform to the value `mousePosUniform`. -/
theorem computePass_eq (unit : FVec2 → FVec2) (deltaTime : F32) (s : Simulation)
    (c : GlContext) :
    computePass unit deltaTime s c
      = glDisable .GL_RASTERIZER_DISCARD (glBindTransformFeedback 0 (glEndTransformFeedback
          (glDrawArrays unit (toGLsizei s.particles_count_) (drawContext deltaTime s c)))) := by
  unfold computePass drawContext mousePosUniform
  by_cases h : (F32.le (.finite 0) s.mouse_x_ && F32.lt s.mouse_x_ (F32.ofInt s.width_)
      && F32.le (.finite 0) s.mouse_y_ && F32.lt s.mouse_y_ (F32.ofInt s.height_)
      && s.mouse_clicked_) = true
  · simp only [if_pos h]
  · simp only [if_neg h]

/-- The compute pass changes no vertex array, no transform feedback binding and no program
table, rasterizes nothing, captures into no buffer but the one at binding point 0 of
`current_.tf`, and leaves transform feedback inactive and rasterization enabled. -/
theorem computePass_frame (unit : FVec2 → FVec2) (deltaTime : F32) (s : Simulation)
    (c : GlContext) :
    (computePass unit deltaTime s c).attribs = c.attribs
    ∧ (computePass unit deltaTime s c).feedbackBase = c.feedbackBase
    ∧ (computePass unit deltaTime s c).linkStatus = c.linkStatus
    ∧ (computePass unit deltaTime s c).linkedFrom = c.linkedFrom
    ∧ (computePass unit deltaTime s c).attribLocation = c.attribLocation
    ∧ (computePass unit deltaTime s c).feedbackActive = false
    ∧ (computePass unit deltaTime s c).enabled .GL_RASTERIZER_DISCARD = false
    ∧ (computePass unit deltaTime s c).drawn = c.drawn
    ∧ ∀ b, b ≠ c.feedbackBase s.current_.tf →
        (computePass unit deltaTime s c).bufferData b = c.bufferData b := by
  rw [computePass_eq]
  refine ⟨?_, ?_, ?_, ?_, ?_, ?_, ?_, ?_, ?_⟩ <;>
    try simp [glDisable, glBindTransformFeedback, glEndTransformFeedback, glDrawArrays,
      drawContext, glBeginTransformFeedback, glEnable, glUniform, glBindVertexArray,
      glUseProgram]
  intro b hb
  split
  · rw [Function.update_noteq hb]
  · rfl

/-- The render pass changes no buffer when transform feedback is inactive, and never a vertex
array, a transform feedback binding or a program table. -/
theorem renderPass_frame (unit : FVec2 → FVec2) (s : Simulation) (c : GlContext)
    (h : c.feedbackActive = false) :
    (renderPass unit s c).bufferData = c.bufferData
    ∧ (renderPass unit s c).attribs = c.attribs
    ∧ (renderPass unit s c).feedbackBase = c.feedbackBase
    ∧ (renderPass unit s c).linkStatus = c.linkStatus
    ∧ (renderPass unit s c).linkedFrom = c.linkedFrom
    ∧ (renderPass unit s c).attribLocation = c.attribLocation := by
  simp [renderPass, glDrawArrays, glUniform, glViewport, glBindVertexArray, glUseProgram, h]

/-- What the render pass rasterizes: with rasterization enabled and the linked render program
finding, at the location of its input `position`, an enabled array of four floats per vertex
over the buffer `Y`, the vertices drawn are the `vec4` values of `Y`, one for each of the
`particles_count_` vertices of the draw. -/
theorem renderPass_drawn (unit : FVec2 → FVec2) (s : Simulation) (c : GlContext) (Y : Nat)
    (h1 : c.enabled .GL_RASTERIZER_DISCARD = false)
    (h2 : c.linkStatus s.gl_.render_program = true)
    (h3 : c.linkedFrom s.gl_.render_program = renderSources)
    (h4 : c.attribs s.current_.draw (c.attribLocation s.gl_.render_program "position")
      = ⟨true, Y, 4⟩) :
    (renderPass unit s c).drawn
      = c.drawn ++ (List.range (toGLsizei s.particles_count_).toNat).map
          (vec4At (c.bufferData Y)) := by
  have key : position (glUniform s.gl_.matrix_location
      (ortho (.finite 0) (F32.ofInt s.width_) (F32.ofInt s.height_) (.finite 0)
        (.finite (-1)) (.finite 1))
      (glViewport 0 0 s.width_ s.height_ (glBindVertexArray s.current_.draw
        (glUseProgram s.gl_.render_program c)))) = vec4At (c.bufferData Y) := by
    funext v
    simp [position, fetch, glUniform, glViewport, glBindVertexArray, glUseProgram, h4, vec4At]
  simp only [renderPass, glDrawArrays, key]
  simp [glUniform, glViewport, glBindVertexArray, glUseProgram, h1, h2, h3]


/-! ## One frame -/

/-- The object after one frame: the inputs of the frame stored, `current_` and `next_`
exchanged, everything else as before. -/
theorem frame_sim (unit : FVec2 → FVec2) (w : World) (f : FrameInput) :
    (frame unit w f).sim
      = { w.sim with
          width_ := f.width
          height_ := f.height
          mouse_x_ := f.x
          mouse_y_ := f.y
          mouse_clicked_ := f.pressed
          current_ := w.sim.next_
          next_ := w.sim.current_ } := rfl

/-- One frame changes no vertex array, no transform feedback binding and no program table. -/
theorem frame_tables (unit : FVec2 → FVec2) (w : World) (f : FrameInput) :
    (frame unit w f).gl.attribs = w.gl.attribs
    ∧ (frame unit w f).gl.feedbackBase = w.gl.feedbackBase
    ∧ (frame unit w f).gl.linkStatus = w.gl.linkStatus
    ∧ (frame unit w f).gl.linkedFrom = w.gl.linkedFrom
    ∧ (frame unit w f).gl.attribLocation = w.gl.attribLocation := by
  obtain ⟨c1, c2, c3, c4, c5, c6, _⟩ := computePass_frame unit f.delta_sec
    (applyInputs f w.sim) (glClear w.gl)
  obtain ⟨_, r2, r3, r4, r5, r6⟩ := renderPass_frame unit (applyInputs f w.sim) _ c6
  simp only [frame, Render]
  rw [r2, r3, r4, r5, r6]
  exact ⟨c1, c2, c3, c4, c5⟩

/-- One frame writes into no buffer but the capture buffer of `current_`. -/
theorem frame_other_buffers (unit : FVec2 → FVec2) (w : World) (f : FrameInput) (b : Nat)
    (hb : b ≠ w.gl.feedbackBase w.sim.current_.tf) :
    (frame unit w f).gl.bufferData b = w.gl.bufferData b := by
  obtain ⟨_, _, _, _, _, c6, _, _, c9⟩ := computePass_frame unit f.delta_sec
    (applyInputs f w.sim) (glClear w.gl)
  obtain ⟨r1, _⟩ := renderPass_frame unit (applyInputs f w.sim) _ c6
  simp only [frame, Render]
  rw [r1]
  exact c9 b hb

/-- What one frame leaves in the framebuffer: the vertices it rasterizes are the `vec4`
values that the capture buffer of `current_` holds after the compute pass of the frame. -/
theorem frame_drawn (unit : FVec2 → FVec2) (w : World) (f : FrameInput) (hr : RenderReady w)
    (hd : DrawsCapture w) :
    (frame unit w f).gl.drawn
      = (List.range (toGLsizei w.sim.particles_count_).toNat).map
          (vec4At ((frame unit w f).gl.bufferData (w.gl.feedbackBase w.sim.current_.tf))) := by
  obtain ⟨c1, c2, c3, c4, c5, c6, c7, c8, _⟩ := computePass_frame unit f.delta_sec
    (applyInputs f w.sim) (glClear w.gl)
  obtain ⟨r1, _⟩ := renderPass_frame unit (applyInputs f w.sim) _ c6
  have h4 : (computePass unit f.delta_sec (applyInputs f w.sim) (glClear w.gl)).attribs
      (applyInputs f w.sim).current_.draw
      ((computePass unit f.delta_sec (applyInputs f w.sim) (glClear w.gl)).attribLocation
        (applyInputs f w.sim).gl_.render_program "position")
      = ⟨true, w.gl.feedbackBase w.sim.current_.tf, 4⟩ := by
    rw [c1, c5]
    show w.gl.attribs w.sim.current_.draw
      (w.gl.attribLocation w.sim.gl_.render_program "position") = _
    rw [hr.position, hd.current]
  have hdraw := renderPass_drawn unit (applyInputs f w.sim) _ _ c7
    (by rw [c3]; exact hr.linked) (by rw [c4]; exact hr.sources) h4
  have e1 : (glClear w.gl).drawn = [] := rfl
  have e2 : (applyInputs f w.sim).particles_count_ = w.sim.particles_count_ := rfl
  simp only [frame, Render]
  rw [r1, hdraw, c8, e1, e2, List.nil_append]

theorem frame_renderReady (unit : FVec2 → FVec2) (w : World) (f : FrameInput)
    (h : RenderReady w) : RenderReady (frame unit w f) := by
  obtain ⟨h1, h2, h3⟩ := h
  obtain ⟨_, _, t3, t4, t5⟩ := frame_tables unit w f
  constructor <;> simp only [frame_sim, t3, t4, t5] <;> assumption

theorem frame_drawsCapture (unit : FVec2 → FVec2) (w : World) (f : FrameInput)
    (h : DrawsCapture w) : DrawsCapture (frame unit w f) := by
  obtain ⟨t1, t2, _⟩ := frame_tables unit w f
  obtain ⟨h1, h2⟩ := h
  constructor <;> simp only [frame_sim, t1, t2] <;> assumption

/-! ## Runs of frames -/

theorem runFrames_cons (unit : FVec2 → FVec2) (w : World) (f : FrameInput)
    (fs : List FrameInput) :
    runFrames unit w (f :: fs) = runFrames unit (frame unit w f) fs := rfl

/-- Every run of frames keeps the render program ready, keeps each transform feedback object
paired with the draw vertex array over the same buffer, and keeps the particle count. -/
theorem runFrames_invariant (unit : FVec2 → FVec2) (fs : List FrameInput) :
    ∀ w : World, RenderReady w → DrawsCapture w →
      RenderReady (runFrames unit w fs) ∧ DrawsCapture (runFrames unit w fs)
      ∧ (runFrames unit w fs).sim.particles_count_ = w.sim.particles_count_ := by
  induction fs with
  | nil => exact fun w h1 h2 => ⟨h1, h2, rfl⟩
  | cons f fs ih =>
    intro w h1 h2
    rw [runFrames_cons]
    obtain ⟨a, b, c⟩ := ih _ (frame_renderReady unit w f h1) (frame_drawsCapture unit w f h2)
    exact ⟨a, b, c⟩

/-! ## The buffers of one `Render` call -/

set_option maxRecDepth 100000 in
/-- C8, as stated, fails: in the state `GenerateParticles` leaves, the buffer the first
`Render` call captures into and the buffer its render pass reads are one buffer, the buffer
named 1 (`new_position_buffer`); after that call the buffer holds what the compute pass
captured, the particles moved by their velocities, and these are the vertices the render
pass drew. -/
theorem capture_and_draw_not_different :
    captureTarget exampleWorld = 1 ∧ drawSource exampleWorld = some 1
    ∧ ¬ (some (captureTarget exampleWorld) ≠ drawSource exampleWorld)
    ∧ (frame exampleUnit exampleWorld idleFrame).gl.bufferData 1
        = [.finite 400, .finite 300, .finite 1, .finite 0,
           .finite 140, .finite 580, .finite 1, .finite 300,
           .finite 140, .finite 580, .finite 1, .finite 300,
           .finite 140, .finite 580, .finite 1, .finite 300]
    ∧ (frame exampleUnit exampleWorld idleFrame).gl.drawn
        = [⟨.finite 400, .finite 300, .finite 1, .finite 0⟩,
           ⟨.finite 140, .finite 580, .finite 1, .finite 300⟩,
           ⟨.finite 140, .finite 580, .finite 1, .finite 300⟩,
           ⟨.finite 140, .finite 580, .finite 1, .finite 300⟩] := by
  decide!

/-- C8, amended. After a successful `SetupGl` in which the render program linked and the
linker gave its input `position` the location of `oldPosition` (the location for which
`GenerateParticles` builds the draw vertex arrays), in every state reached from the one
`GenerateParticles` leaves by any number of frames: the buffer the compute pass of the next
`Render` call captures into and the buffer its render pass reads are the same buffer; the
frame writes into no other buffer; and the vertices its render pass draws are the `vec4`
values that buffer holds after the compute pass, one for each vertex of the draw. -/
theorem capture_target_is_draw_source {E I : Type} (d : Driver) (rs : RandomSource E I)
    (sqrt : ℚ → ℚ) (e : E) (i : I) (count : Nat) (w : World) (unit : FVec2 → FVec2)
    (fs : List FrameInput) (f : FrameInput)
    (hok : (SetupGl d w).1 = true) (hlink : d.links renderSources = true)
    (hloc : d.attribLocation renderSources "position"
      = d.attribLocation computeSources "oldPosition") :
    drawSource (runFrames unit (startup d rs sqrt e i count w) fs)
      = some (captureTarget (runFrames unit (startup d rs sqrt e i count w) fs))
    ∧ (∀ b, b ≠ captureTarget (runFrames unit (startup d rs sqrt e i count w) fs) →
        (frame unit (runFrames unit (startup d rs sqrt e i count w) fs) f).gl.bufferData b
          = (runFrames unit (startup d rs sqrt e i count w) fs).gl.bufferData b)
    ∧ (frame unit (runFrames unit (startup d rs sqrt e i count w) fs) f).gl.drawn
      = (List.range (toGLsizei count).toNat).map
          (vec4At ((frame unit (runFrames unit (startup d rs sqrt e i count w) fs)
            f).gl.bufferData
              (captureTarget (runFrames unit (startup d rs sqrt e i count w) fs)))) := by
  have hr0 := GenerateParticles_renderReady rs sqrt e i count _
    (SetupGl_renderReady d w hok hlink hloc)
  have hd0 := GenerateParticles_drawsCapture rs sqrt e i count (SetupGl d w).2
  obtain ⟨hr, hd, hc⟩ := runFrames_invariant unit fs _ hr0 hd0
  rw [GenerateParticles_count] at hc
  refine ⟨?_, ?_, ?_⟩
  · simp only [drawSource, attribBuffer, captureTarget, startup, hr.position, hd.current,
      if_true]
  · intro b hb
    exact frame_other_buffers unit _ f b hb
  · have := frame_drawn unit _ f hr hd
    rw [hc] at this
    exact this

theorem capture_target_is_draw_source_witness :
    ((SetupGl exampleDriver ⟨exampleSimulation, emptyContext⟩).1 = true
      ∧ exampleDriver.links renderSources = true
      ∧ exampleDriver.attribLocation renderSources "position"
          = exampleDriver.attribLocation computeSources "oldPosition")
    ∧ drawSource (runFrames exampleUnit (startup exampleDriver exampleRandom exampleSqrt 0 0 4
          ⟨exampleSimulation, emptyContext⟩) exampleFrames)
      = some (captureTarget (runFrames exampleUnit (startup exampleDriver exampleRandom
          exampleSqrt 0 0 4 ⟨exampleSimulation, emptyContext⟩) exampleFrames)) :=
  have hok : (SetupGl exampleDriver ⟨exampleSimulation, emptyContext⟩).1 = true := by decide
  have hlink : exampleDriver.links renderSources = true := rfl
  have hloc : exampleDriver.attribLocation renderSources "position"
      = exampleDriver.attribLocation computeSources "oldPosition" := by decide
  ⟨⟨hok, hlink, hloc⟩,
   (capture_target_is_draw_source exampleDriver exampleRandom exampleSqrt 0 0 4
      ⟨exampleSimulation, emptyContext⟩ exampleUnit exampleFrames exampleFrame
      hok hlink hloc).1⟩

/-! ## A driver that gives `position` another location than `oldPosition` -/

theorem mismatchDriver_conforming : mismatchDriver.Conforming := by
  simp [Driver.Conforming, mismatchDriver, exampleDriver, computeSources]

set_option maxRecDepth 100000 in
/-- C1, failing input. A driver on which everything compiles and links and which gives the
inputs of the compute program the locations `oldVelocity` = 0 and `oldPosition` = 1, and the
input `position` of the render program the location 0; `SetupGl` and `GenerateParticles(4)`
on a newly constructed `Simulation(800, 600)`. `SetupGl` returns true and stores the location
1 in `gl_.old_position_location` and the location 0 in `gl_.position_location`. The compute
pass of the first `Render` call reads buffer 2 and captures into buffer 1, but its render pass
reads no buffer: the draw vertex array has its array at location 1, not at the location 0 of
`position`, and every vertex drawn is the default `(0, 0, 0, 1)`. The compute pass of the
second call reads buffer 1. So (b) and (c) fail. -/
theorem render_pass_reads_no_buffer :
    mismatchDriver.Conforming
    ∧ (SetupGl mismatchDriver ⟨exampleSimulation, emptyContext⟩).1 = true
    ∧ mismatchWorld.sim.gl_.old_position_location = 1
    ∧ mismatchWorld.sim.gl_.position_location = 0
    ∧ computeSource mismatchWorld = some 2
    ∧ captureTarget mismatchWorld = 1
    ∧ drawSource mismatchWorld = none
    ∧ (frame exampleUnit mismatchWorld idleFrame).gl.drawn
        = List.replicate 4 ⟨.finite 0, .finite 0, .finite 0, .finite 1⟩
    ∧ computeSource (frame exampleUnit mismatchWorld idleFrame) = some 1
    ∧ drawSource (frame exampleUnit mismatchWorld idleFrame) = none :=
  ⟨mismatchDriver_conforming, by decide!⟩

set_option maxRecDepth 100000 in
/-- C2, failing input. The driver and the start of C1, then one frame of one second on the
800 by 600 canvas with the pointer inactive. The compute step applied once to the uploaded
positions gives `(400, 300, 1, 0)` for the first particle and `(140, 580, 1, 300)` for the
other three, and this is what the compute pass captures into buffer 1; but the render pass
of that first `Render` call reads no buffer, and the four vertices it draws are
`(0, 0, 0, 1)`. -/
theorem drawn_vertices_are_not_the_compute_step :
    mismatchDriver.Conforming
    ∧ (SetupGl mismatchDriver ⟨exampleSimulation, emptyContext⟩).1 = true
    ∧ computeStep exampleUnit (mismatchWorld.sim.velocities_.map F32.round) 4
          (mismatchWorld.sim.positions_.map F32.round) idleFrame
        = [.finite 400, .finite 300, .finite 1, .finite 0,
           .finite 140, .finite 580, .finite 1, .finite 300,
           .finite 140, .finite 580, .finite 1, .finite 300,
           .finite 140, .finite 580, .finite 1, .finite 300]
    ∧ (frame exampleUnit mismatchWorld idleFrame).gl.bufferData 1
        = computeStep exampleUnit (mismatchWorld.sim.velocities_.map F32.round) 4
            (mismatchWorld.sim.positions_.map F32.round) idleFrame
    ∧ drawSource mismatchWorld = none
    ∧ (frame exampleUnit mismatchWorld idleFrame).gl.drawn
        = [⟨.finite 0, .finite 0, .finite 0, .finite 1⟩,
           ⟨.finite 0, .finite 0, .finite 0, .finite 1⟩,
           ⟨.finite 0, .finite 0, .finite 0, .finite 1⟩,
           ⟨.finite 0, .finite 0, .finite 0, .finite 1⟩] :=
  ⟨mismatchDriver_conforming, by decide!⟩

end BoidSim
